import Mathlib

/-!
Verification development for the smredir USB/IP smart-card redirector.
The definitions below are a shallow embedding of the Rust sources
(src/ccid_const.rs, src/ccid_proto.rs, src/ccid.rs, src/webusb.rs,
src/device.rs): bytes are natural numbers, cursors over byte buffers are
lists, fallible operations return Except/Option, and the stateful
interface handlers are explicit state-passing functions parameterised by
an oracle for the PC/SC backend.
-/

set_option linter.unusedVariables false

namespace Smredir


/-- Slot error register, from ccid_proto.rs `SlotErrorRegister`. -/
inductive SlotErrorRegister where
  | CommandAbort
  | ICCMute
  | TransferParityError
  | TransferOverrun
  | HardwareError
  | BadATRTS
  | BadATRTCK
  | UnsupportedICCProtocol
  | UnsupportedICCClass
  | ProcedureNatConflict
  | DeactivatedProtocol
  | BusyWithAutoSequence
  | PINTimeout
  | PINCancelled
  | CommandSlotBusy
  | UnsupportedCommand
  | UserDefined (x : Nat)
  | RFU (x : Nat)
  | InvalidParameter (x : Nat)
  deriving DecidableEq, Repr

/-- `impl From<SlotErrorRegister> for u8`, using the byte constants of ccid_const.rs. -/
def SlotErrorRegister.toByte : SlotErrorRegister → Nat
  | .CommandAbort => 0xFF
  | .ICCMute => 0xFE
  | .TransferParityError => 0xFD
  | .TransferOverrun => 0xFC
  | .HardwareError => 0xFB
  | .BadATRTS => 0xF8
  | .BadATRTCK => 0xF7
  | .UnsupportedICCProtocol => 0xF6
  | .UnsupportedICCClass => 0xF5
  | .ProcedureNatConflict => 0xF4
  | .DeactivatedProtocol => 0xF3
  | .BusyWithAutoSequence => 0xF2
  | .PINTimeout => 0xF0
  | .PINCancelled => 0xEF
  | .CommandSlotBusy => 0xE0
  | .UnsupportedCommand => 0x00
  | .UserDefined x => x
  | .RFU x => x
  | .InvalidParameter x => x

/-- ICC presence state, from ccid_proto.rs `ICCStatus`. -/
inductive ICCStatus where
  | Active
  | Inactive
  | Absent
  deriving DecidableEq, Repr

/-- `ICCStatus::to_u8`. -/
def ICCStatus.toByte : ICCStatus → Nat
  | .Active => 0x00
  | .Inactive => 0x01
  | .Absent => 0x02

/-- Command status, from ccid_proto.rs `CommandStatus`. -/
inductive CommandStatus where
  | Success
  | Failure
  | TimeExtensionRequested
  deriving DecidableEq, Repr

/-- `CommandStatus::to_u8`. -/
def CommandStatus.toByte : CommandStatus → Nat
  | .Success => 0x00
  | .Failure => 0x01
  | .TimeExtensionRequested => 0x02

/-- Packed slot status register, from ccid_proto.rs `SlotStatusRegister`. -/
inductive SlotStatusRegister where
  | ICCActiveSuccess
  | ICCActiveFailure
  | ICCActiveTimeExtensionRequested
  | ICCInactiveSuccess
  | ICCInactiveFailure
  | ICCInactiveTimeExtensionRequested
  | ICCAbsentSuccess
  | ICCAbsentFailure
  | ICCAbsentTimeExtensionRequested
  deriving DecidableEq, Repr

/-- `combine_slot_status` of ccid_proto.rs: ICC state in bits 0-1, command status in bits 6-7. -/
def combine_slot_status (icc : ICCStatus) (command : CommandStatus) : Nat :=
  icc.toByte ||| (command.toByte <<< 6)

/-- `impl From<SlotStatusRegister> for u8`. -/
def SlotStatusRegister.toByte : SlotStatusRegister → Nat
  | .ICCActiveSuccess => combine_slot_status .Active .Success
  | .ICCActiveFailure => combine_slot_status .Active .Failure
  | .ICCActiveTimeExtensionRequested => combine_slot_status .Active .TimeExtensionRequested
  | .ICCInactiveSuccess => combine_slot_status .Inactive .Success
  | .ICCInactiveFailure => combine_slot_status .Inactive .Failure
  | .ICCInactiveTimeExtensionRequested => combine_slot_status .Inactive .TimeExtensionRequested
  | .ICCAbsentSuccess => combine_slot_status .Absent .Success
  | .ICCAbsentFailure => combine_slot_status .Absent .Failure
  | .ICCAbsentTimeExtensionRequested => combine_slot_status .Absent .TimeExtensionRequested

/-- `SlotStatusRegister::CommandStatus`: decode bits 6-7 of the packed byte.
The source's `CommandStatus::try_from(..).unwrap()` can never see a value
other than 0, 1, 2, so the catch-all arm is unreachable. -/
def SlotStatusRegister.commandStatus (s : SlotStatusRegister) : CommandStatus :=
  match (s.toByte &&& 0xC0) >>> 6 with
  | 0 => .Success
  | 1 => .Failure
  | _ => .TimeExtensionRequested

/-- ICC supply voltage, from ccid_proto.rs `ICCVoltage`. -/
inductive ICCVoltage where
  | AUTO
  | V_5_0
  | V_3_0
  | V_1_8
  deriving DecidableEq, Repr

/-- `impl TryFrom<u8> for ICCVoltage`. -/
def ICCVoltage.tryFrom : Nat → Except SlotErrorRegister ICCVoltage
  | 0x00 => .ok .AUTO
  | 0x01 => .ok .V_5_0
  | 0x02 => .ok .V_3_0
  | 0x03 => .ok .V_1_8
  | _ => .error (.InvalidParameter 0x07)

/-- ICC protocol, from ccid_proto.rs `ICCProtocol`. -/
inductive ICCProtocol where
  | T0
  | T1
  deriving DecidableEq, Repr

/-- `impl From<ICCProtocol> for u8`. -/
def ICCProtocol.toByte : ICCProtocol → Nat
  | .T0 => 0x00
  | .T1 => 0x01

/-- `impl TryFrom<u8> for ICCProtocol`. Note: the source's error here is
`InvalidParameter(0x9)`, unlike the other enum conversions which use 0x7. -/
def ICCProtocol.tryFrom : Nat → Except SlotErrorRegister ICCProtocol
  | 0x00 => .ok .T0
  | 0x01 => .ok .T1
  | _ => .error (.InvalidParameter 0x9)

/-- Clock command, from ccid_proto.rs `ICCClockCommand`. -/
inductive ICCClockCommand where
  | Restart
  | Stop
  deriving DecidableEq, Repr

/-- `impl TryFrom<u8> for ICCClockCommand`. -/
def ICCClockCommand.tryFrom : Nat → Except SlotErrorRegister ICCClockCommand
  | 0x00 => .ok .Restart
  | 0x01 => .ok .Stop
  | _ => .error (.InvalidParameter 0x07)

/-- T0 APDU class change, from ccid_proto.rs `T0APDUClassChange`. -/
inductive T0APDUClassChange where
  | None
  | GetResponse
  | Envelope
  | Both
  deriving DecidableEq, Repr

/-- `impl TryFrom<u8> for T0APDUClassChange`. -/
def T0APDUClassChange.tryFrom : Nat → Except SlotErrorRegister T0APDUClassChange
  | 0x00 => .ok .None
  | 0x01 => .ok .GetResponse
  | 0x02 => .ok .Envelope
  | 0x03 => .ok .Both
  | _ => .error (.InvalidParameter 0x07)

/-- Mechanical function, from ccid_proto.rs `ICCMechanicalFunction`. -/
inductive ICCMechanicalFunction where
  | AcceptCard
  | EjectCard
  | CaptureCard
  | LockCard
  | UnlockCard
  deriving DecidableEq, Repr

/-- `impl TryFrom<u8> for ICCMechanicalFunction`. -/
def ICCMechanicalFunction.tryFrom : Nat → Except SlotErrorRegister ICCMechanicalFunction
  | 0x01 => .ok .AcceptCard
  | 0x02 => .ok .EjectCard
  | 0x03 => .ok .CaptureCard
  | 0x04 => .ok .LockCard
  | 0x05 => .ok .UnlockCard
  | _ => .error (.InvalidParameter 0x07)

/-- Clock status, from ccid_proto.rs `ICCClockStatus`. -/
inductive ICCClockStatus where
  | Running
  | StoppedInL
  | StoppedInH
  | StoppedUnknown
  deriving DecidableEq, Repr

/-- `impl From<ICCClockStatus> for u8`. -/
def ICCClockStatus.toByte : ICCClockStatus → Nat
  | .Running => 0x00
  | .StoppedInL => 0x01
  | .StoppedInH => 0x02
  | .StoppedUnknown => 0x03

/-- Fixed 10-byte CCID command prefix, from ccid_proto.rs `CommonMessageHeader`
(the encoded prefix is 7 bytes: type, 4-byte little-endian length, slot, seq). -/
structure CommonMessageHeader where
  bMessageType : Nat
  dwLength : Nat
  bSlot : Nat
  bSeq : Nat
  deriving DecidableEq, Repr

/-- Response header: command header plus the two status bytes,
from ccid_proto.rs `ResponseMessageHeader`. -/
structure ResponseMessageHeader where
  inner : CommonMessageHeader
  bStatus : SlotStatusRegister
  bError : SlotErrorRegister
  deriving DecidableEq, Repr

/-- Decode/encode errors of the CCID codec, from ccid_proto.rs `CCIDError`. -/
inductive CCIDError where
  | BadCommand
  | CommandError (header : ResponseMessageHeader)
  deriving DecidableEq, Repr

/-- `CCIDError::command_error`. -/
def CCIDError.command_error (command : CommonMessageHeader) (status : SlotStatusRegister)
    (error : SlotErrorRegister) : CCIDError :=
  .CommandError ⟨command, status, error⟩

/-- Little-endian u32 serialisation (`write_u32::<LittleEndian>`). -/
def u32le (n : Nat) : List Nat :=
  [n % 256, n / 256 % 256, n / 65536 % 256, n / 16777216 % 256]

/-- `CommonMessageHeader`'s `Encode` impl: type, u32 LE length, slot, seq. -/
def CommonMessageHeader.encode (h : CommonMessageHeader) : List Nat :=
  h.bMessageType :: u32le h.dwLength ++ [h.bSlot, h.bSeq]

/-- `ResponseMessageHeader`'s `Encode` impl: inner header then status and error bytes. -/
def ResponseMessageHeader.encode (h : ResponseMessageHeader) : List Nat :=
  h.inner.encode ++ [h.bStatus.toByte, h.bError.toByte]

/-! Cursor reads (the source reads from an `io::Cursor` via byteorder). -/

/-- `read_u8`: consume one byte. -/
def readU8 : List Nat → Option (Nat × List Nat)
  | [] => none
  | b :: rest => some (b, rest)

/-- `read_u16::<LittleEndian>`: consume two bytes. -/
def readU16LE : List Nat → Option (Nat × List Nat)
  | b0 :: b1 :: rest => some (b0 + b1 * 256, rest)
  | _ => none

/-- `read_u32::<LittleEndian>`: consume four bytes. -/
def readU32LE : List Nat → Option (Nat × List Nat)
  | b0 :: b1 :: b2 :: b3 :: rest =>
      some (b0 + b1 * 256 + b2 * 65536 + b3 * 16777216, rest)
  | _ => none

/-- `read_exact` into a buffer of `n` bytes. -/
def readExact (n : Nat) (l : List Nat) : Option (List Nat × List Nat) :=
  if n ≤ l.length then some (l.take n, l.drop n) else none

/-- `CommonMessageHeader`'s `Decode` impl: each failed read maps to `BadCommand`. -/
def CommonMessageHeader.decode (input : List Nat) :
    Except CCIDError (CommonMessageHeader × List Nat) :=
  match readU8 input with
  | none => .error .BadCommand
  | some (bMessageType, r0) =>
    match readU32LE r0 with
    | none => .error .BadCommand
    | some (dwLength, r1) =>
      match readU8 r1 with
      | none => .error .BadCommand
      | some (bSlot, r2) =>
        match readU8 r2 with
        | none => .error .BadCommand
        | some (bSeq, r3) => .ok (⟨bMessageType, dwLength, bSlot, bSeq⟩, r3)

/-- Decoded CCID command, from ccid_proto.rs `Command`
(fixed-size `[u8; N]` RFU fields are modelled as length-N lists). -/
inductive Command where
  | PC_to_RDR_IccPowerOn (header : CommonMessageHeader) (bPowerSelect : ICCVoltage)
      (abRFU : List Nat)
  | PC_to_RDR_IccPowerOff (header : CommonMessageHeader) (abRFU : List Nat)
  | PC_to_RDR_GetSlotStatus (header : CommonMessageHeader) (abRFU : List Nat)
  | PC_to_RDR_XfrBlock (header : CommonMessageHeader) (bBWI : Nat)
      (wLevelParameter : Nat) (abData : List Nat)
  | PC_to_RDR_GetParameters (header : CommonMessageHeader) (abRFU : List Nat)
  | PC_to_RDR_ResetParameters (header : CommonMessageHeader) (abRFU : List Nat)
  | PC_to_RDR_SetParameters (header : CommonMessageHeader) (bProtocolNum : ICCProtocol)
      (abRFU : List Nat) (abData : List Nat)
  | PC_to_RDR_Escape (header : CommonMessageHeader) (abRFU : List Nat) (abData : List Nat)
  | PC_to_RDR_IccClock (header : CommonMessageHeader) (bClockCommand : ICCClockCommand)
      (abRFU : List Nat)
  | PC_to_RDR_T0APDU (header : CommonMessageHeader) (bmChanges : T0APDUClassChange)
      (bClassGetResponse : Nat) (bClassEnvelope : Nat)
  | PC_to_RDR_Secure (header : CommonMessageHeader) (bBWI : Nat)
      (wLevelParameter : Nat) (abData : List Nat)
  | PC_to_RDR_Mechanical (header : CommonMessageHeader) (bFunction : ICCMechanicalFunction)
      (abRFU : List Nat)
  | PC_to_RDR_Abort (header : CommonMessageHeader) (abRFU : List Nat)
  | PC_to_RDR_SetDataRateAndClockFrequency (header : CommonMessageHeader)
      (abRFU : List Nat) (dwClockFrequency : Nat) (dwDataRate : Nat)
  deriving DecidableEq, Repr

/-- `Command::get_header`. -/
def Command.get_header : Command → CommonMessageHeader
  | .PC_to_RDR_IccPowerOn header _ _ => header
  | .PC_to_RDR_IccPowerOff header _ => header
  | .PC_to_RDR_GetSlotStatus header _ => header
  | .PC_to_RDR_XfrBlock header _ _ _ => header
  | .PC_to_RDR_GetParameters header _ => header
  | .PC_to_RDR_ResetParameters header _ => header
  | .PC_to_RDR_SetParameters header _ _ _ => header
  | .PC_to_RDR_Escape header _ _ => header
  | .PC_to_RDR_IccClock header _ _ => header
  | .PC_to_RDR_T0APDU header _ _ _ => header
  | .PC_to_RDR_Secure header _ _ _ => header
  | .PC_to_RDR_Mechanical header _ _ => header
  | .PC_to_RDR_Abort header _ => header
  | .PC_to_RDR_SetDataRateAndClockFrequency header _ _ _ => header

/-- Message-type constant of each command variant (the byte the decoder
dispatched on; see ccid_const.rs). -/
def Command.typeByte : Command → Nat
  | .PC_to_RDR_IccPowerOn _ _ _ => 0x62
  | .PC_to_RDR_IccPowerOff _ _ => 0x63
  | .PC_to_RDR_GetSlotStatus _ _ => 0x65
  | .PC_to_RDR_XfrBlock _ _ _ _ => 0x6F
  | .PC_to_RDR_GetParameters _ _ => 0x6C
  | .PC_to_RDR_ResetParameters _ _ => 0x6D
  | .PC_to_RDR_SetParameters _ _ _ _ => 0x61
  | .PC_to_RDR_Escape _ _ _ => 0x6B
  | .PC_to_RDR_IccClock _ _ _ => 0x6E
  | .PC_to_RDR_T0APDU _ _ _ _ => 0x6A
  | .PC_to_RDR_Secure _ _ _ _ => 0x69
  | .PC_to_RDR_Mechanical _ _ _ => 0x71
  | .PC_to_RDR_Abort _ _ => 0x72
  | .PC_to_RDR_SetDataRateAndClockFrequency _ _ _ _ => 0x73

/-- Trailing-byte check at the end of `Command::decode`: any byte left in the
cursor after the variant body is an `InvalidParameter(0x1)` command error. -/
def Command.checkTrailing (header : CommonMessageHeader) (cmd : Command) (rest : List Nat) :
    Except CCIDError Command :=
  if rest = [] then .ok cmd
  else .error (CCIDError.command_error header .ICCInactiveFailure (.InvalidParameter 0x1))

/-- `Command`'s `Decode` impl (ccid_proto.rs): decode the common header, dispatch
on the message type, parse the variant body with per-field error codes, then
reject trailing bytes.  Unknown message types short-circuit with
`ICCActiveFailure`/`UnsupportedCommand` before the trailing check, exactly as
the source's early `return Err`. -/
def Command.decode (input : List Nat) : Except CCIDError Command :=
  match CommonMessageHeader.decode input with
  | .error e => .error e
  | .ok (header, r0) =>
    match header.bMessageType with
    | 0x62 => -- PC_to_RDR_IccPowerOn
      if header.dwLength ≠ 0 then
        .error (CCIDError.command_error header .ICCInactiveFailure (.InvalidParameter 0x1))
      else
        match readU8 r0 with
        | none => .error (CCIDError.command_error header .ICCInactiveFailure (.InvalidParameter 0x7))
        | some (b, r1) =>
          match ICCVoltage.tryFrom b with
          | .error e => .error (CCIDError.command_error header .ICCInactiveFailure e)
          | .ok bPowerSelect =>
            match readExact 2 r1 with
            | none => .error (CCIDError.command_error header .ICCInactiveFailure (.InvalidParameter 0x8))
            | some (abRFU, r2) =>
              checkTrailing header (.PC_to_RDR_IccPowerOn header bPowerSelect abRFU) r2
    | 0x63 => -- PC_to_RDR_IccPowerOff
      if header.dwLength ≠ 0 then
        .error (CCIDError.command_error header .ICCInactiveFailure (.InvalidParameter 0x1))
      else
        match readExact 3 r0 with
        | none => .error (CCIDError.command_error header .ICCInactiveFailure (.InvalidParameter 0x7))
        | some (abRFU, r1) =>
          checkTrailing header (.PC_to_RDR_IccPowerOff header abRFU) r1
    | 0x65 => -- PC_to_RDR_GetSlotStatus
      if header.dwLength ≠ 0 then
        .error (CCIDError.command_error header .ICCInactiveFailure (.InvalidParameter 0x1))
      else
        match readExact 3 r0 with
        | none => .error (CCIDError.command_error header .ICCInactiveFailure (.InvalidParameter 0x7))
        | some (abRFU, r1) =>
          checkTrailing header (.PC_to_RDR_GetSlotStatus header abRFU) r1
    | 0x6F => -- PC_to_RDR_XfrBlock
      match readU8 r0 with
      | none => .error (CCIDError.command_error header .ICCInactiveFailure (.InvalidParameter 0x7))
      | some (bBWI, r1) =>
        match readU16LE r1 with
        | none => .error (CCIDError.command_error header .ICCInactiveFailure (.InvalidParameter 0x8))
        | some (wLevelParameter, r2) =>
          match readExact header.dwLength r2 with
          | none => .error (CCIDError.command_error header .ICCInactiveFailure (.InvalidParameter 0x1))
          | some (abData, r3) =>
            checkTrailing header (.PC_to_RDR_XfrBlock header bBWI wLevelParameter abData) r3
    | 0x6C => -- PC_to_RDR_GetParameters
      if header.dwLength ≠ 0 then
        .error (CCIDError.command_error header .ICCInactiveFailure (.InvalidParameter 0x1))
      else
        match readExact 3 r0 with
        | none => .error (CCIDError.command_error header .ICCInactiveFailure (.InvalidParameter 0x7))
        | some (abRFU, r1) =>
          checkTrailing header (.PC_to_RDR_GetParameters header abRFU) r1
    | 0x6D => -- PC_to_RDR_ResetParameters
      if header.dwLength ≠ 0 then
        .error (CCIDError.command_error header .ICCInactiveFailure (.InvalidParameter 0x1))
      else
        match readExact 3 r0 with
        | none => .error (CCIDError.command_error header .ICCInactiveFailure (.InvalidParameter 0x7))
        | some (abRFU, r1) =>
          checkTrailing header (.PC_to_RDR_ResetParameters header abRFU) r1
    | 0x61 => -- PC_to_RDR_SetParameters
      match readU8 r0 with
      | none => .error (CCIDError.command_error header .ICCInactiveFailure (.InvalidParameter 0x7))
      | some (b, r1) =>
        match ICCProtocol.tryFrom b with
        | .error e => .error (CCIDError.command_error header .ICCInactiveFailure e)
        | .ok bProtocolNum =>
          match readExact 2 r1 with
          | none => .error (CCIDError.command_error header .ICCInactiveFailure (.InvalidParameter 0x8))
          | some (abRFU, r2) =>
            match readExact header.dwLength r2 with
            | none => .error (CCIDError.command_error header .ICCInactiveFailure (.InvalidParameter 0x1))
            | some (abData, r3) =>
              checkTrailing header (.PC_to_RDR_SetParameters header bProtocolNum abRFU abData) r3
    | 0x6B => -- PC_to_RDR_Escape
      match readExact 3 r0 with
      | none => .error (CCIDError.command_error header .ICCInactiveFailure (.InvalidParameter 0x7))
      | some (abRFU, r1) =>
        match readExact header.dwLength r1 with
        | none => .error (CCIDError.command_error header .ICCInactiveFailure (.InvalidParameter 0x1))
        | some (abData, r2) =>
          checkTrailing header (.PC_to_RDR_Escape header abRFU abData) r2
    | 0x6E => -- PC_to_RDR_IccClock
      if header.dwLength ≠ 0 then
        .error (CCIDError.command_error header .ICCInactiveFailure (.InvalidParameter 0x1))
      else
        match readU8 r0 with
        | none => .error (CCIDError.command_error header .ICCInactiveFailure (.InvalidParameter 0x7))
        | some (b, r1) =>
          match ICCClockCommand.tryFrom b with
          | .error e => .error (CCIDError.command_error header .ICCInactiveFailure e)
          | .ok bClockCommand =>
            match readExact 2 r1 with
            | none => .error (CCIDError.command_error header .ICCInactiveFailure (.InvalidParameter 0x8))
            | some (abRFU, r2) =>
              checkTrailing header (.PC_to_RDR_IccClock header bClockCommand abRFU) r2
    | 0x6A => -- PC_to_RDR_T0APDU
      if header.dwLength ≠ 0 then
        .error (CCIDError.command_error header .ICCInactiveFailure (.InvalidParameter 0x1))
      else
        match readU8 r0 with
        | none => .error (CCIDError.command_error header .ICCInactiveFailure (.InvalidParameter 0x7))
        | some (b, r1) =>
          match T0APDUClassChange.tryFrom b with
          | .error e => .error (CCIDError.command_error header .ICCInactiveFailure e)
          | .ok bmChanges =>
            match readU8 r1 with
            | none => .error (CCIDError.command_error header .ICCInactiveFailure (.InvalidParameter 0x8))
            | some (bClassGetResponse, r2) =>
              match readU8 r2 with
              | none => .error (CCIDError.command_error header .ICCInactiveFailure (.InvalidParameter 0x9))
              | some (bClassEnvelope, r3) =>
                checkTrailing header
                  (.PC_to_RDR_T0APDU header bmChanges bClassGetResponse bClassEnvelope) r3
    | 0x69 => -- PC_to_RDR_Secure
      match readU8 r0 with
      | none => .error (CCIDError.command_error header .ICCInactiveFailure (.InvalidParameter 0x7))
      | some (bBWI, r1) =>
        match readU16LE r1 with
        | none => .error (CCIDError.command_error header .ICCInactiveFailure (.InvalidParameter 0x8))
        | some (wLevelParameter, r2) =>
          match readExact header.dwLength r2 with
          | none => .error (CCIDError.command_error header .ICCInactiveFailure (.InvalidParameter 0x1))
          | some (abData, r3) =>
            checkTrailing header (.PC_to_RDR_Secure header bBWI wLevelParameter abData) r3
    | 0x71 => -- PC_to_RDR_Mechanical
      if header.dwLength ≠ 0 then
        .error (CCIDError.command_error header .ICCInactiveFailure (.InvalidParameter 0x1))
      else
        match readU8 r0 with
        | none => .error (CCIDError.command_error header .ICCInactiveFailure (.InvalidParameter 0x7))
        | some (b, r1) =>
          match ICCMechanicalFunction.tryFrom b with
          | .error e => .error (CCIDError.command_error header .ICCInactiveFailure e)
          | .ok bFunction =>
            match readExact 2 r1 with
            | none => .error (CCIDError.command_error header .ICCInactiveFailure (.InvalidParameter 0x8))
            | some (abRFU, r2) =>
              checkTrailing header (.PC_to_RDR_Mechanical header bFunction abRFU) r2
    | 0x72 => -- PC_to_RDR_Abort
      if header.dwLength ≠ 0 then
        .error (CCIDError.command_error header .ICCInactiveFailure (.InvalidParameter 0x1))
      else
        match readExact 3 r0 with
        | none => .error (CCIDError.command_error header .ICCInactiveFailure (.InvalidParameter 0x7))
        | some (abRFU, r1) =>
          checkTrailing header (.PC_to_RDR_Abort header abRFU) r1
    | 0x73 => -- PC_to_RDR_SetDataRateAndClockFrequency
      if header.dwLength ≠ 8 then
        .error (CCIDError.command_error header .ICCInactiveFailure (.InvalidParameter 0x1))
      else
        match readExact 3 r0 with
        | none => .error (CCIDError.command_error header .ICCInactiveFailure (.InvalidParameter 0x7))
        | some (abRFU, r1) =>
          match readU32LE r1 with
          | none => .error (CCIDError.command_error header .ICCInactiveFailure (.InvalidParameter 0xa))
          | some (dwClockFrequency, r2) =>
            match readU32LE r2 with
            | none => .error (CCIDError.command_error header .ICCInactiveFailure (.InvalidParameter 0xe))
            | some (dwDataRate, r3) =>
              checkTrailing header
                (.PC_to_RDR_SetDataRateAndClockFrequency header abRFU dwClockFrequency dwDataRate) r3
    | _ =>
      .error (.CommandError ⟨header, .ICCActiveFailure, .UnsupportedCommand⟩)

/-- CCID response, from ccid_proto.rs `Response`. -/
inductive Response where
  | RDR_to_PC_DataBlock (header : ResponseMessageHeader) (bChainParameter : Nat)
      (abData : List Nat)
  | RDR_to_PC_SlotStatus (header : ResponseMessageHeader) (bClockStatus : ICCClockStatus)
  | RDR_to_PC_Parameters (header : ResponseMessageHeader) (bProtocolNum : ICCProtocol)
      (abData : List Nat)
  | RDR_to_PC_Escape (header : ResponseMessageHeader) (abData : List Nat)
  | RDR_to_PC_DataRateAndClockFrequency (header : ResponseMessageHeader)
      (dwClockFrequency : Nat) (dwDataRate : Nat)
  | RDR_to_PC_UnsupportedCommand (header : ResponseMessageHeader)
  deriving DecidableEq, Repr

/-- `Response::new_with_status`: pick the response shape for a command header.
A Failure status paired with the `UnsupportedCommand` error short-circuits to
the `UnsupportedCommand` shape without touching the message type.  Note two
faithful quirks of the source: the Escape arm matches `RDR_to_PC_Escape`
(0x83, a response constant, so it is dead for decoded commands), and the
catch-all arm overrides status/error with `ICCActiveFailure`/`UnsupportedCommand`
while leaving the message type unchanged. -/
def Response.new_with_status (command : CommonMessageHeader) (status : SlotStatusRegister)
    (error : SlotErrorRegister) : Response :=
  let header : ResponseMessageHeader := ⟨{ command with dwLength := 0x0 }, status, error⟩
  if status.commandStatus = CommandStatus.Failure ∧ error = SlotErrorRegister.UnsupportedCommand then
    .RDR_to_PC_UnsupportedCommand header
  else
    match command.bMessageType with
    | 0x62 | 0x6F | 0x69 => -- IccPowerOn, XfrBlock, Secure
      .RDR_to_PC_DataBlock { header with inner.bMessageType := 0x80 } 0 []
    | 0x63 | 0x65 | 0x6E | 0x6A | 0x71 | 0x72 =>
      -- IccPowerOff, GetSlotStatus, IccClock, T0APDU, Mechanical, Abort
      .RDR_to_PC_SlotStatus { header with inner.bMessageType := 0x81 } .Running
    | 0x6C | 0x6D | 0x61 => -- GetParameters, ResetParameters, SetParameters
      .RDR_to_PC_Parameters { header with inner.bMessageType := 0x82 } .T1 []
    | 0x83 => -- RDR_to_PC_Escape (sic: the response constant, not PC_to_RDR_Escape)
      .RDR_to_PC_Escape { header with inner.bMessageType := 0x83 } []
    | 0x73 => -- SetDataRateAndClockFrequency
      .RDR_to_PC_DataRateAndClockFrequency { header with inner.bMessageType := 0x84 } 0x0 0x0
    | _ =>
      .RDR_to_PC_UnsupportedCommand
        { header with bStatus := .ICCActiveFailure, bError := .UnsupportedCommand }

/-- `Response::new`. -/
def Response.new (command : CommonMessageHeader) : Response :=
  Response.new_with_status command .ICCActiveSuccess .UnsupportedCommand

/-- `Response::new_with_error`. -/
def Response.new_with_error (header : ResponseMessageHeader) : Response :=
  Response.new_with_status header.inner header.bStatus header.bError

/-- `Response::set_status`: the `UnsupportedCommand` shape only logs. -/
def Response.set_status (r : Response) (status : SlotStatusRegister)
    (error : SlotErrorRegister) : Response :=
  match r with
  | .RDR_to_PC_SlotStatus header c =>
      .RDR_to_PC_SlotStatus { header with bStatus := status, bError := error } c
  | .RDR_to_PC_Parameters header p d =>
      .RDR_to_PC_Parameters { header with bStatus := status, bError := error } p d
  | .RDR_to_PC_DataBlock header cp d =>
      .RDR_to_PC_DataBlock { header with bStatus := status, bError := error } cp d
  | .RDR_to_PC_DataRateAndClockFrequency header cf dr =>
      .RDR_to_PC_DataRateAndClockFrequency { header with bStatus := status, bError := error } cf dr
  | .RDR_to_PC_Escape header d =>
      .RDR_to_PC_Escape { header with bStatus := status, bError := error } d
  | .RDR_to_PC_UnsupportedCommand header => .RDR_to_PC_UnsupportedCommand header

/-- `Response::append`: extend the trailing data and keep `dwLength` consistent;
shapes without a data buffer return an error (`Err(())` in the source). -/
def Response.append (r : Response) (data : List Nat) : Option Response :=
  match r with
  | .RDR_to_PC_DataBlock header cp d =>
      some (.RDR_to_PC_DataBlock
        { header with inner.dwLength := header.inner.dwLength + data.length } cp (d ++ data))
  | .RDR_to_PC_Parameters header p d =>
      some (.RDR_to_PC_Parameters
        { header with inner.dwLength := header.inner.dwLength + data.length } p (d ++ data))
  | .RDR_to_PC_Escape header d =>
      some (.RDR_to_PC_Escape
        { header with inner.dwLength := header.inner.dwLength + data.length } (d ++ data))
  | _ => none

/-- `Response`'s `Encode` impl.  The source writes `dwDataRate` before
`dwClockFrequency` in the DataRateAndClockFrequency arm, which is kept here. -/
def Response.encode : Response → List Nat
  | .RDR_to_PC_DataBlock header bChainParameter abData =>
      header.encode ++ [bChainParameter] ++ abData
  | .RDR_to_PC_SlotStatus header bClockStatus =>
      header.encode ++ [bClockStatus.toByte]
  | .RDR_to_PC_Parameters header bProtocolNum abData =>
      header.encode ++ [bProtocolNum.toByte] ++ abData
  | .RDR_to_PC_Escape header abData =>
      header.encode ++ abData
  | .RDR_to_PC_DataRateAndClockFrequency header dwClockFrequency dwDataRate =>
      header.encode ++ u32le dwDataRate ++ u32le dwClockFrequency
  | .RDR_to_PC_UnsupportedCommand header =>
      header.encode ++ [0]

/-!
CCID bridge handler, from src/ccid.rs.  The PC/SC backend is external, so its
outcomes are an oracle parameter and its invocations are recorded as events.
-/

/-- Mutable state of `CCIDInterfaceHandler` relevant to URB handling:
`card` is whether `self.card` currently holds a handle, `parameter` is the
ATR-derived 7-byte block, `outQueue` is the FIFO of encoded response frames. -/
structure CCIDState where
  card : Bool
  parameter : Option (List Nat)
  outQueue : List (List Nat)
  deriving DecidableEq, Repr

/-- Outcomes of the synchronous PC/SC calls a single bulk-OUT command may make. -/
structure PCSCOracle where
  connectOk : Bool
  statusATR : Option (List Nat)
  transactionOk : Bool
  transmitResult : Option (List Nat)
  deriving DecidableEq, Repr

/-- PC/SC invocations performed while handling one command. -/
inductive PCSCEvent where
  | connect
  | disconnect
  | status
  | beginTransaction
  | transmit (data : List Nat)
  deriving DecidableEq, Repr

/-- Result of `handle_urb` as seen by the USB/IP layer. -/
inductive UrbResult where
  | ok (bytes : List Nat)
  | err
  deriving DecidableEq, Repr

/-- `CCIDInterfaceHandler::drop_card`: disconnect (reset) iff a handle is held. -/
def dropCard (card : Bool) : Bool × List PCSCEvent :=
  if card then (false, [.disconnect]) else (card, [])

/-- Slot-0 command dispatch of `CCIDInterfaceHandler::handle_urb` (the big
`match cmd` after the card-absent and slot gates): returns the new card
state, the computed response, and the PC/SC calls made. -/
def processCommand (o : PCSCOracle) (card : Bool) (parameter : Option (List Nat)) :
    Command → Bool × Response × List PCSCEvent
  | .PC_to_RDR_Abort header _ => (card, Response.new header, [])
  | .PC_to_RDR_GetSlotStatus header _ =>
      let resp := Response.new header
      let resp := if card = false then
          resp.set_status .ICCInactiveSuccess .UnsupportedCommand
        else resp
      (card, resp, [])
  | .PC_to_RDR_IccPowerOff header _ =>
      let resp := Response.new header
      let resp := match resp with
        | .RDR_to_PC_SlotStatus h _ =>
            .RDR_to_PC_SlotStatus
              { h with bStatus := .ICCInactiveSuccess, bError := .UnsupportedCommand } .Running
        | r => r
      let (card, evs) := dropCard card
      (card, resp, evs)
  | .PC_to_RDR_IccPowerOn header _ _ =>
      let resp := Response.new header
      if card = false then
        if o.connectOk = false then
          -- connect failed: card stays absent, status query is not reached
          (false, resp.set_status .ICCInactiveFailure .HardwareError, [.connect])
        else
          match o.statusATR with
          | none =>
              -- status2 failed after a successful connect: the handle is kept
              (true, resp.set_status .ICCInactiveFailure .HardwareError, [.connect, .status])
          | some atr => (true, (resp.append atr).getD resp, [.connect, .status])
      else
        match o.statusATR with
        | none => (card, resp.set_status .ICCInactiveFailure .HardwareError, [.status])
        | some atr => (card, (resp.append atr).getD resp, [.status])
  | .PC_to_RDR_XfrBlock header _ _ abData =>
      let resp := Response.new header
      if header.dwLength > 0 then
        -- the source unwraps the card handle here; the absent-card gate ran before
        if o.transactionOk = false then
          let resp := match resp with
            | .RDR_to_PC_DataBlock h cp d =>
                .RDR_to_PC_DataBlock
                  { h with bStatus := .ICCActiveFailure, bError := .CommandSlotBusy } cp d
            | r => r
          (card, resp, [.beginTransaction])
        else
          match o.transmitResult with
          | some apdu => (card, (resp.append apdu).getD resp, [.beginTransaction, .transmit abData])
          | none =>
              let resp := match resp with
                | .RDR_to_PC_DataBlock h cp d =>
                    .RDR_to_PC_DataBlock
                      { h with bStatus := .ICCActiveFailure, bError := .CommandSlotBusy } cp d
                | r => r
              (card, resp, [.beginTransaction, .transmit abData])
      else (card, resp, [])
  | .PC_to_RDR_GetParameters header _ =>
      match parameter with
      | some p =>
          let resp := Response.new header
          let resp := match resp with
            | .RDR_to_PC_Parameters h _ d => Response.RDR_to_PC_Parameters h .T1 d
            | r => r -- the source panics on any other shape; unreachable here
          (card, (resp.append p).getD resp, [])
      | none =>
          (card, Response.new_with_error ⟨header, .ICCActiveFailure, .UnsupportedCommand⟩, [])
  | .PC_to_RDR_Escape header _ _ =>
      (card, Response.new_with_error ⟨header, .ICCActiveFailure, .UnsupportedCommand⟩, [])
  | .PC_to_RDR_IccClock header _ _ =>
      (card, Response.new_with_error ⟨header, .ICCActiveFailure, .UnsupportedCommand⟩, [])
  | .PC_to_RDR_Mechanical header _ _ =>
      (card, Response.new_with_error ⟨header, .ICCActiveFailure, .UnsupportedCommand⟩, [])
  | .PC_to_RDR_ResetParameters header _ =>
      (card, Response.new_with_error ⟨header, .ICCActiveFailure, .UnsupportedCommand⟩, [])
  | .PC_to_RDR_Secure header _ _ _ =>
      (card, Response.new_with_error ⟨header, .ICCActiveFailure, .UnsupportedCommand⟩, [])
  | .PC_to_RDR_SetDataRateAndClockFrequency header _ _ _ =>
      (card, Response.new_with_error ⟨header, .ICCActiveFailure, .UnsupportedCommand⟩, [])
  | .PC_to_RDR_SetParameters header _ _ _ =>
      (card, Response.new_with_error ⟨header, .ICCActiveFailure, .UnsupportedCommand⟩, [])
  | .PC_to_RDR_T0APDU header _ _ _ =>
      (card, Response.new_with_error ⟨header, .ICCActiveFailure, .UnsupportedCommand⟩, [])

/-- Bulk-OUT endpoint 0x01 path of `CCIDInterfaceHandler::handle_urb`:
length gate, decode, card-absent gate, slot gate, dispatch; every response
frame is pushed onto `outQueue` and the URB completes with empty bytes. -/
def handleBulkOut (o : PCSCOracle) (s : CCIDState) (req : List Nat) :
    CCIDState × List PCSCEvent × UrbResult :=
  if req.length < 10 then (s, [], .err)
  else
    match Command.decode req with
    | .error .BadCommand => (s, [], .err)
    | .error (.CommandError header) =>
        ({ s with outQueue := s.outQueue ++ [(Response.new_with_error header).encode] },
         [], .ok [])
    | .ok cmd =>
      let hdr := cmd.get_header
      if s.card = false ∧ hdr.bMessageType ≠ 0x62 ∧ hdr.bMessageType ≠ 0x63
          ∧ hdr.bMessageType ≠ 0x65 then
        let response := Response.new_with_error ⟨hdr, .ICCAbsentFailure, .InvalidParameter 0x5⟩
        ({ s with outQueue := s.outQueue ++ [response.encode] }, [], .ok [])
      else if hdr.bSlot ≠ 0x0 then
        let response := Response.new_with_error ⟨hdr, .ICCAbsentFailure, .InvalidParameter 0x05⟩
        ({ s with outQueue := s.outQueue ++ [response.encode] }, [], .ok [])
      else
        let (card, response, evs) := processCommand o s.card s.parameter cmd
        ({ s with card := card, outQueue := s.outQueue ++ [response.encode] }, evs, .ok [])

/-- Bulk-IN endpoint 0x81 path of `CCIDInterfaceHandler::handle_urb`:
pop one frame from the queue, or empty bytes. -/
def handleBulkIn (s : CCIDState) : CCIDState × List Nat :=
  match s.outQueue with
  | [] => (s, [])
  | v :: rest => ({ s with outQueue := rest }, v)

/-!
ATR parsing, from the parameter-derivation closure in
`CCIDInterfaceHandler::new` (src/ccid.rs).  `new` rejects ATRs shorter than
2 bytes before the closure runs, which is kept as the first guard.  Branches
that the source only debug-logs (absent TC1; TD2's Y3 nibble indicating
neither TA3 nor TB3) fall through exactly as in the source.
-/

/-- TS-byte stage: `new` rejects ATRs shorter than 2 bytes, then the closure
matches `atr[0]` — 0x3B is the direct convention, 0x3F the inverse, anything
else abandons. -/
def atrDirectConvention (atr : List Nat) : Option Bool :=
  if atr.length < 2 then none
  else match atr.getD 0 0 with
    | 0x3B => some true
    | 0x3F => some false
    | _ => none

/-- Interface-byte stage: TA1 must be advertised by `T0` bit 4; of the Y1
nibble shapes only 0xD and 0xF yield a TC1 offset (`ta1_offset + 1` and
`ta1_offset + 2` with `ta1_offset = 2`); every other arm abandons after a
debug log. -/
def atrTC1OffsetOpt (atr : List Nat) : Option Nat :=
  if (atr.getD 1 0) &&& 0x10 = 0 then none -- TA1 must be present
  else match ((atr.getD 1 0) &&& 0xF0) >>> 4 with
    | 0xD => some 3
    | 0xF => some 4
    | _ => none

/-- TD2-offset stage, from TD1's Y2 nibble; nibbles 0x0..=0x7 mean TD2 is
absent and abandon. -/
def atrTD2OffsetOpt (atr : List Nat) (td1_offset : Nat) : Option Nat :=
  match ((atr.getD td1_offset 0) &&& 0xF0) >>> 4 with
  | 0x8 | 0xC => some (td1_offset + 1)
  | 0x9 | 0xA => some (td1_offset + 2)
  | 0xB | 0xD | 0xE => some (td1_offset + 3)
  | 0xF => some (td1_offset + 4)
  | _ => none

/-- TD2 Y3-nibble stage: nibbles announcing only TA3 ({1,5,9,D}) or only TB3
({2,6,A,E}) abandon; {3,7,B,F} proceed, and the remaining shapes (neither
TA3 nor TB3) are only debug-logged and fall through, exactly as the source. -/
def atrTA3TB3Check (y3 : Nat) : Option Unit :=
  if y3 = 0x1 ∨ y3 = 0x5 ∨ y3 = 0x9 ∨ y3 = 0xD then none -- only TA3
  else if y3 = 0x2 ∨ y3 = 0x6 ∨ y3 = 0xA ∨ y3 = 0xE then none -- only TB3
  else some ()

/-- TCCKST1 byte: bit 0 is CRC use (TC1 bit 0), bit 1 is the inverse
convention, bit 4 always set. -/
def tcckst1Byte (tc1 : Nat) (direct_convention : Bool) : Nat :=
  (match tc1 &&& 0x01 == 0x01, direct_convention with
    | true, false => 3
    | true, true => 1
    | false, false => 2
    | false, true => 0) ||| 0x10

/-- ATR to 7-byte CCID parameter block
`[TA1, TCCKST1, ExtraGuardTime, TB3, 0x00, TA3, 0x00]`, or `none`:
the stages above chained in the source's order, with the source's bound
checks for TA1 (offset 2), TC1, TD1, TD2, and TA3/TB3 between them.  The
extra-guard-time byte is TC1 itself. -/
def parameterFromATR (atr : List Nat) : Option (List Nat) :=
  (atrDirectConvention atr).bind fun direct_convention =>
  (atrTC1OffsetOpt atr).bind fun tc1_offset =>
  if 2 ≥ atr.length then none
  else if tc1_offset ≥ atr.length then none
  else if tc1_offset + 1 ≥ atr.length then none
  else
    (atrTD2OffsetOpt atr (tc1_offset + 1)).bind fun td2_offset =>
    if td2_offset ≥ atr.length then none
    else
      (atrTA3TB3Check (((atr.getD td2_offset 0) &&& 0xF0) >>> 4)).bind fun _ =>
      if td2_offset + 2 ≥ atr.length then none
      else
        some [atr.getD 2 0,
              tcckst1Byte (atr.getD tc1_offset 0) direct_convention,
              atr.getD tc1_offset 0, -- ExtraGuardTime is TC1
              atr.getD (td2_offset + 2) 0, -- TB3
              0x00, -- stopping the clock is not allowed
              atr.getD (td2_offset + 1) 0, -- TA3
              0x0] -- NAD value

/-- TC1 offset for a parseable ATR: 3 when Y1 = 0xD, 4 when Y1 = 0xF. -/
def atrTC1Offset (atr : List Nat) : Nat :=
  if ((atr.getD 1 0) &&& 0xF0) >>> 4 = 0xD then 3 else 4

/-- TD1 offset for a parseable ATR. -/
def atrTD1Offset (atr : List Nat) : Nat := atrTC1Offset atr + 1

/-- TD2 offset for a parseable ATR, from TD1's Y2 nibble (meaningful when Y2 ≥ 8). -/
def atrTD2Offset (atr : List Nat) : Nat :=
  let y2 := ((atr.getD (atrTD1Offset atr) 0) &&& 0xF0) >>> 4
  atrTD1Offset atr +
    (if y2 = 0x8 ∨ y2 = 0xC then 1
     else if y2 = 0x9 ∨ y2 = 0xA then 2
     else if y2 = 0xB ∨ y2 = 0xD ∨ y2 = 0xE then 3
     else 4)

/-!
BOS descriptor aggregation, from `CanokeyVirtDeviceHandler::handle_urb`
(src/device.rs): the lazily-initialised body of `bos_descriptors.get_or_init`,
as a function of the capability fragments collected from the vendor children.
-/

/-- Default empty BOS descriptor `{0x05, BOS, 0x05, 0x00, 0x00}`. -/
def defaultBosDescriptor : List Nat := [0x05, 0x0F, 0x05, 0x00, 0x00]

/-- Aggregate capability fragments into a BOS descriptor, falling back to the
default when the total length exceeds u16 or the count exceeds u8. -/
def buildBosDescriptor (capability_descriptors : List (List Nat)) : List Nat :=
  let total_length := capability_descriptors.foldl (fun v d => v + d.length) 5
  if total_length > 0xFFFF then defaultBosDescriptor
  else if capability_descriptors.length > 0xFF then defaultBosDescriptor
  else
    [0x05, 0x0F] ++ [total_length % 256, total_length / 256]
      ++ [capability_descriptors.length] ++ capability_descriptors.flatten

/-!
WebUSB forwarder, from src/webusb.rs, with the setup-packet parsing of
`ControlSetup::new` (src/device.rs).  Forwarding to the physical interface
and the `drop_card` call on the CCID bridge are externally visible actions,
recorded in order as events.
-/

/-- `nusb::transfer::ControlType`. -/
inductive ControlType where
  | Standard
  | Class
  | Vendor
  deriving DecidableEq, Repr

/-- `nusb::transfer::Recipient`. -/
inductive Recipient where
  | Device
  | Interface
  | Endpoint
  | Other
  deriving DecidableEq, Repr

/-- `nusb::transfer::ControlIn` setup fields. -/
structure ControlIn where
  control_type : ControlType
  recipient : Recipient
  request : Nat
  value : Nat
  index : Nat
  length : Nat
  deriving DecidableEq, Repr

/-- `nusb::transfer::ControlOut` setup fields plus payload. -/
structure ControlOut where
  control_type : ControlType
  recipient : Recipient
  request : Nat
  value : Nat
  index : Nat
  data : List Nat
  deriving DecidableEq, Repr

/-- `ControlSetup` of src/device.rs. -/
inductive ControlSetup where
  | In (control : ControlIn)
  | Out (control : ControlOut)
  deriving DecidableEq, Repr

/-- `usbip::SetupPacket`. -/
structure SetupPacket where
  request_type : Nat
  request : Nat
  value : Nat
  index : Nat
  length : Nat
  deriving DecidableEq, Repr

/-- Assembly step of `ControlSetup::new`: build the In or Out record according
to the direction bit of bmRequestType. -/
def ControlSetup.assemble (control_type : ControlType) (recipient : Recipient)
    (setup : SetupPacket) (data : List Nat) (direction_in : Bool) : ControlSetup :=
  if direction_in then
    .In ⟨control_type, recipient, setup.request, setup.value, setup.index, setup.length⟩
  else
    .Out ⟨control_type, recipient, setup.request, setup.value, setup.index, data⟩

/-- Recipient decoding step of `ControlSetup::new`, shared by the three
accepted control types; recipients above 3 are io errors. -/
def ControlSetup.ofParts (control_type : ControlType) (setup : SetupPacket)
    (data : List Nat) (direction_in : Bool) : Except Unit ControlSetup :=
  match setup.request_type &&& 0x1F with
  | 0 => .ok (ControlSetup.assemble control_type .Device setup data direction_in)
  | 1 => .ok (ControlSetup.assemble control_type .Interface setup data direction_in)
  | 2 => .ok (ControlSetup.assemble control_type .Endpoint setup data direction_in)
  | 3 => .ok (ControlSetup.assemble control_type .Other setup data direction_in)
  | _ => .error ()

/-- `ControlSetup::new`: split the bmRequestType bitfield into direction,
control type and recipient; unknown control types or recipients are
io errors. -/
def ControlSetup.new (setup : SetupPacket) (data : List Nat) : Except Unit ControlSetup :=
  let direction_in : Bool := setup.request_type &&& 0x80 ≠ 0
  match (setup.request_type &&& 0x60) >>> 5 with
  | 0 => ControlSetup.ofParts .Standard setup data direction_in
  | 1 => ControlSetup.ofParts .Class setup data direction_in
  | 2 => ControlSetup.ofParts .Vendor setup data direction_in
  | _ => .error ()

/-- Externally visible actions of `WebUSBInterfaceHandler::handle_urb`, in
program order. -/
inductive WebUSBEvent where
  | dropCard
  | forwardIn (control : ControlIn)
  | forwardOut (control : ControlOut)
  deriving DecidableEq, Repr

/-- Interface-level control path of `WebUSBInterfaceHandler::handle_urb`:
In GetStatus (request 0x00) is answered locally with `{0x00, 0x00}` and no
events; every other parsed transfer first drops the CCID card, rewrites the
low index byte to the physical `interface_number` when the recipient is
Interface, and forwards.  `interface_number` is a u8 of the backing device. -/
def webusbHandleUrb (interface_number : Nat) (setup : SetupPacket) (req : List Nat) :
    Except Unit (List Nat × List WebUSBEvent) :=
  match ControlSetup.new setup req with
  | .error e => .error e
  | .ok (.In control) =>
      if control.request = 0x00 then -- StandardRequest::GetStatus as u8
        .ok ([0x00, 0x00], [])
      else
        let control := if control.recipient = Recipient.Interface then
            { control with index := (control.index &&& 0xFF00) ||| interface_number }
          else control
        .ok ([], [.dropCard, .forwardIn control])
  | .ok (.Out control) =>
      let control := if control.recipient = Recipient.Interface then
          { control with index := (control.index &&& 0xFF00) ||| interface_number }
        else control
      .ok ([], [.dropCard, .forwardOut control])

/-!
Iterated bulk traffic, for the FIFO pipelining property: a run of bulk-OUT
URBs (each with the PC/SC outcomes of its step) followed by bulk-IN drains.
-/

/-- Process a list of bulk-OUT URBs in order. -/
def runOuts (s : CCIDState) : List (PCSCOracle × List Nat) → CCIDState
  | [] => s
  | (o, r) :: rest => runOuts (handleBulkOut o s r).1 rest

/-- The frames each bulk-OUT URB of a run pushes, in order (what the step
appended to `outQueue` in its own state). -/
def pushedFrames (s : CCIDState) : List (PCSCOracle × List Nat) → List (List Nat)
  | [] => []
  | (o, r) :: rest =>
      let s1 := (handleBulkOut o (s) r).1
      s1.outQueue.drop s.outQueue.length ++ pushedFrames s1 rest

/-- Every bulk-OUT URB of the run completed with `Ok` (it was accepted, or
answered with a CommandError response); the failing URBs return an io error
and push nothing. -/
def allAccepted (s : CCIDState) : List (PCSCOracle × List Nat) → Prop
  | [] => True
  | (o, r) :: rest =>
      (handleBulkOut o s r).2.2 = .ok [] ∧ allAccepted (handleBulkOut o s r).1 rest

/-- Apply `n` bulk-IN drains, keeping only the final state. -/
def drainN (s : CCIDState) : Nat → CCIDState
  | 0 => s
  | n + 1 => drainN (handleBulkIn s).1 n

/-!
Claim C1 — unknown message type 0x77.
-/

/-- Claim C1 is false as stated: for the 10-byte command
`77 00000000 00 06 00 0000` the queued frame is
`77 00000000 00 06 40 00 00` — the message-type byte of the
UnsupportedCommand response echoes the unknown command byte 0x77; it is not
rewritten to 0x81 as the claim asserts. -/
theorem claim_C1_counterexample :
    (handleBulkOut ⟨true, some [], true, some []⟩ ⟨true, none, []⟩
        [0x77, 0x00, 0x00, 0x00, 0x00, 0x00, 0x06, 0x00, 0x00, 0x00]).1.outQueue
      = [[0x77, 0x00, 0x00, 0x00, 0x00, 0x00, 0x06, 0x40, 0x00, 0x00]]
    ∧ [0x77, 0x00, 0x00, 0x00, 0x00, 0x00, 0x06, 0x40, 0x00, 0x00]
      ≠ [0x81, 0x00, 0x00, 0x00, 0x00, 0x00, 0x06, 0x40, 0x00, 0x00] := by
  exact ⟨rfl, by decide⟩

/-- Claim C1 (amended): from any handler state and any PC/SC oracle, the
10-byte command `77 00000000 00 06 00 0000` (unknown message type 0x77) makes
the bulk-OUT handler push exactly the frame `77 00000000 00 06 40 00 00` —
status byte 0x40 (ICC Active + command Failure), error byte 0x00
(UnsupportedCommand), single 0x00 trailer, and a message-type byte that
echoes the command's 0x77 — with no PC/SC calls and an empty Ok URB reply. -/
theorem claim_C1_unknown_type_response (o : PCSCOracle) (s : CCIDState) :
    handleBulkOut o s [0x77, 0x00, 0x00, 0x00, 0x00, 0x00, 0x06, 0x00, 0x00, 0x00]
      = ({ s with outQueue := s.outQueue
            ++ [[0x77, 0x00, 0x00, 0x00, 0x00, 0x00, 0x06, 0x40, 0x00, 0x00]] },
         [], .ok []) := by
  rfl

/-!
Claim C2 — GetSlotStatus with the card absent.
-/

/-- Claim C2 is false as stated: with no card handle, GetSlotStatus
`65 00000000 00 04 00 0000` queues `81 00000000 00 04 01 00 00`, whose
status byte is 0x01 (ICC Inactive + command Success), not 0x41. -/
theorem claim_C2_counterexample :
    (handleBulkOut ⟨true, some [], true, some []⟩ ⟨false, none, []⟩
        [0x65, 0x00, 0x00, 0x00, 0x00, 0x00, 0x04, 0x00, 0x00, 0x00]).1.outQueue
      = [[0x81, 0x00, 0x00, 0x00, 0x00, 0x00, 0x04, 0x01, 0x00, 0x00]]
    ∧ [0x81, 0x00, 0x00, 0x00, 0x00, 0x00, 0x04, 0x01, 0x00, 0x00]
      ≠ [0x81, 0x00, 0x00, 0x00, 0x00, 0x00, 0x04, 0x41, 0x00, 0x00] := by
  exact ⟨rfl, by decide⟩

/-- Claim C2 (amended): when the card handle is None, GetSlotStatus
`65 00000000 00 04 00 0000` queues exactly `81 00000000 00 04 01 00 00`:
a SlotStatus frame whose status byte is 0x01 (ICC Inactive + command
Success, the `ICCInactiveSuccess` override) and whose error byte is 0x00. -/
theorem claim_C2_getslotstatus_no_card (o : PCSCOracle) (s : CCIDState)
    (hcard : s.card = false) :
    handleBulkOut o s [0x65, 0x00, 0x00, 0x00, 0x00, 0x00, 0x04, 0x00, 0x00, 0x00]
      = ({ s with outQueue := s.outQueue
            ++ [[0x81, 0x00, 0x00, 0x00, 0x00, 0x00, 0x04, 0x01, 0x00, 0x00]] },
         [], .ok []) := by
  obtain ⟨card, parameter, outQueue⟩ := s
  subst hcard
  rfl

/-- Claim C2 witness: the amended statement evaluated at a concrete state. -/
theorem claim_C2_witness :
    handleBulkOut ⟨true, some [], true, some []⟩ ⟨false, none, []⟩
        [0x65, 0x00, 0x00, 0x00, 0x00, 0x00, 0x04, 0x00, 0x00, 0x00]
      = (⟨false, none, [[0x81, 0x00, 0x00, 0x00, 0x00, 0x00, 0x04, 0x01, 0x00, 0x00]]⟩,
         [], .ok []) := by
  exact claim_C2_getslotstatus_no_card ⟨true, some [], true, some []⟩ ⟨false, none, []⟩ rfl

/-!
Claim C3 — handling of undecodable bulk-OUT requests.
-/

/-- Claim C3 is false as stated: a bulk-OUT request shorter than 10 bytes is
answered with an io error to the USB/IP layer (and nothing is queued), not
with Ok and a queued CCID error response. -/
theorem claim_C3_counterexample :
    handleBulkOut ⟨true, some [], true, some []⟩ ⟨true, none, []⟩ [0x65]
        = (⟨true, none, []⟩, [], .err)
    ∧ (UrbResult.err ≠ .ok []) := by
  exact ⟨rfl, by decide⟩

/-- Claim C3 (amended): a bulk-OUT request of at least 10 bytes whose CCID
decoding fails with a `CommandError` is never surfaced as an error to the
USB/IP layer — the handler returns Ok with empty bytes and pushes the encoded
on-wire CCID error response onto the Bulk-IN queue; but a request shorter
than 10 bytes (the `BadCommand` precondition) is rejected with an io error
and nothing is queued. -/
theorem claim_C3_framing_errors (o : PCSCOracle) (s : CCIDState) :
    (∀ (req : List Nat) (header : ResponseMessageHeader), 10 ≤ req.length →
      Command.decode req = .error (.CommandError header) →
      handleBulkOut o s req
        = ({ s with outQueue := s.outQueue ++ [(Response.new_with_error header).encode] },
           [], .ok []))
    ∧ (∀ req : List Nat, req.length < 10 → handleBulkOut o s req = (s, [], .err)) := by
  constructor
  · intro req header hlen hdec
    unfold handleBulkOut
    rw [if_neg (by omega), hdec]
  · intro req hlen
    unfold handleBulkOut
    rw [if_pos hlen]

/-- Claim C3 witness: the amended statement at a concrete CommandError input
(a SetParameters frame with an out-of-range protocol byte) and at a concrete
short input. -/
theorem claim_C3_witness :
    handleBulkOut ⟨true, some [], true, some []⟩ ⟨true, none, []⟩
        [0x61, 0x00, 0x00, 0x00, 0x00, 0x00, 0x00, 0x02, 0x00, 0x00]
      = (⟨true, none,
          [(Response.new_with_error
              ⟨⟨0x61, 0, 0x00, 0x00⟩, .ICCInactiveFailure, .InvalidParameter 0x9⟩).encode]⟩,
         [], .ok [])
    ∧ handleBulkOut ⟨true, some [], true, some []⟩ ⟨true, none, []⟩ [0x65]
      = (⟨true, none, []⟩, [], .err) := by
  exact ⟨(claim_C3_framing_errors ⟨true, some [], true, some []⟩ ⟨true, none, []⟩).1
          [0x61, 0x00, 0x00, 0x00, 0x00, 0x00, 0x00, 0x02, 0x00, 0x00]
          ⟨⟨0x61, 0, 0x00, 0x00⟩, .ICCInactiveFailure, .InvalidParameter 0x9⟩
          (by decide) (by rfl),
        (claim_C3_framing_errors ⟨true, some [], true, some []⟩ ⟨true, none, []⟩).2
          [0x65] (by decide)⟩

/-!
Claim C8 — command/response pipelining is FIFO.
-/

/-- Every encoded response frame is non-empty (it starts with the 9-byte
response header). -/
theorem Response.encode_ne_nil (r : Response) : r.encode ≠ [] := by
  cases r <;>
    simp [Response.encode, ResponseMessageHeader.encode, CommonMessageHeader.encode, u32le]

/-- A bulk-OUT URB that completes with Ok appends exactly one non-empty frame
to the response queue. -/
theorem handleBulkOut_queue_append (o : PCSCOracle) (s : CCIDState) (r : List Nat)
    (h : (handleBulkOut o s r).2.2 = .ok []) :
    ∃ f, (handleBulkOut o s r).1.outQueue = s.outQueue ++ [f] ∧ f ≠ [] := by
  unfold handleBulkOut at h ⊢
  by_cases hlen : r.length < 10
  · rw [if_pos hlen] at h; exact absurd h (by simp)
  rw [if_neg hlen] at h ⊢
  cases hd : Command.decode r with
  | error e =>
    cases e with
    | BadCommand => rw [hd] at h; simp at h
    | CommandError hdr =>
      simp only [hd]
      exact ⟨_, rfl, Response.encode_ne_nil _⟩
  | ok cmd =>
    simp only [hd]
    by_cases hgate : s.card = false ∧ (cmd.get_header).bMessageType ≠ 0x62
        ∧ (cmd.get_header).bMessageType ≠ 0x63 ∧ (cmd.get_header).bMessageType ≠ 0x65
    · rw [if_pos hgate]
      exact ⟨_, rfl, Response.encode_ne_nil _⟩
    · rw [if_neg hgate]
      by_cases hslot : (cmd.get_header).bSlot ≠ 0x0
      · rw [if_pos hslot]
        exact ⟨_, rfl, Response.encode_ne_nil _⟩
      · rw [if_neg hslot]
        rcases hp : processCommand o s.card s.parameter cmd with ⟨c2, resp, evs⟩
        simp only [hp]
        exact ⟨_, rfl, Response.encode_ne_nil _⟩

/-- Running a sequence of accepted bulk-OUT URBs appends their frames to the
queue in order, one non-empty frame per URB. -/
theorem runOuts_queue (l : List (PCSCOracle × List Nat)) :
    ∀ s : CCIDState, allAccepted s l →
      (runOuts s l).outQueue = s.outQueue ++ pushedFrames s l
      ∧ (pushedFrames s l).length = l.length
      ∧ (∀ f ∈ pushedFrames s l, f ≠ []) := by
  induction l with
  | nil => intro s _; simp [runOuts, pushedFrames]
  | cons p rest ih =>
    intro s hacc
    obtain ⟨o, r⟩ := p
    obtain ⟨hok, hacc2⟩ := hacc
    obtain ⟨f, hq, hf⟩ := handleBulkOut_queue_append o s r hok
    obtain ⟨ih1, ih2, ih3⟩ := ih (handleBulkOut o s r).1 hacc2
    simp only [runOuts, pushedFrames]
    rw [hq, List.drop_left]
    refine ⟨?_, ?_, ?_⟩
    · rw [ih1, hq, List.append_assoc]
    · simp [ih2]
    · intro g hg
      rcases List.mem_append.mp hg with hg | hg
      · simp at hg; subst hg; exact hf
      · exact ih3 g hg

/-- `n` bulk-IN drains drop the first `n` queued frames. -/
theorem drainN_queue (i : Nat) :
    ∀ s : CCIDState, (drainN s i).outQueue = s.outQueue.drop i := by
  induction i with
  | zero => intro s; simp [drainN]
  | succ n ih =>
    intro s
    simp only [drainN]
    rw [ih]
    cases hq : s.outQueue <;> simp [handleBulkIn, hq]

/-- A bulk-IN drain returns the front of the queue, or empty bytes. -/
theorem handleBulkIn_result (s : CCIDState) :
    (handleBulkIn s).2 = s.outQueue.getD 0 [] := by
  cases hq : s.outQueue <;> simp [handleBulkIn, hq, List.getD]

/-- Head of a dropped list is the indexed element. -/
theorem getD_drop {α : Type} (i : Nat) :
    ∀ (l : List α) (d : α), (l.drop i).getD 0 d = l.getD i d := by
  induction i with
  | zero => intro l d; simp
  | succ n ih => intro l d; cases l <;> simp [List.getD, ih]

/-- Claim C8: pipelining is FIFO.  For any sequence of bulk-OUT URBs each of
which the handler accepts (completes with Ok — a decoded command or a
CommandError answer), starting from an empty queue: exactly one non-empty
frame is pushed per URB, and the i-th bulk-IN drain afterwards returns
exactly the frame computed for the i-th URB (in order); a bulk-IN drain on an
empty queue returns empty bytes. -/
theorem claim_C8_fifo_pipelining (l : List (PCSCOracle × List Nat)) (s : CCIDState)
    (hq : s.outQueue = []) (hacc : allAccepted s l) :
    (pushedFrames s l).length = l.length
    ∧ (∀ f ∈ pushedFrames s l, f ≠ [])
    ∧ (∀ i : Nat, (handleBulkIn (drainN (runOuts s l) i)).2 = (pushedFrames s l).getD i [])
    ∧ (∀ t : CCIDState, t.outQueue = [] → (handleBulkIn t).2 = []) := by
  obtain ⟨hrun, hlen, hne⟩ := runOuts_queue l s hacc
  refine ⟨hlen, hne, ?_, ?_⟩
  · intro i
    rw [handleBulkIn_result, drainN_queue, hrun, hq, List.nil_append, getD_drop]
  · intro t ht
    simp [handleBulkIn, ht]

/-- Claim C8 witness: two bulk-OUT URBs (GetSlotStatus seq 1, then unknown
type 0x77 seq 2) from an empty queue; the first and second drains return the
two computed frames in order. -/
theorem claim_C8_witness :
    (handleBulkIn (drainN (runOuts ⟨true, none, []⟩
        [(⟨true, some [], true, some []⟩, [0x65, 0, 0, 0, 0, 0, 0x01, 0, 0, 0]),
         (⟨true, some [], true, some []⟩, [0x77, 0, 0, 0, 0, 0, 0x02, 0, 0, 0])]) 0)).2
      = [0x81, 0x00, 0x00, 0x00, 0x00, 0x00, 0x01, 0x00, 0x00, 0x00]
    ∧ (handleBulkIn (drainN (runOuts ⟨true, none, []⟩
        [(⟨true, some [], true, some []⟩, [0x65, 0, 0, 0, 0, 0, 0x01, 0, 0, 0]),
         (⟨true, some [], true, some []⟩, [0x77, 0, 0, 0, 0, 0, 0x02, 0, 0, 0])]) 1)).2
      = [0x77, 0x00, 0x00, 0x00, 0x00, 0x00, 0x02, 0x40, 0x00, 0x00] := by
  have h := claim_C8_fifo_pipelining
    [(⟨true, some [], true, some []⟩, [0x65, 0, 0, 0, 0, 0, 0x01, 0, 0, 0]),
     (⟨true, some [], true, some []⟩, [0x77, 0, 0, 0, 0, 0, 0x02, 0, 0, 0])]
    ⟨true, none, []⟩ rfl ⟨rfl, rfl, trivial⟩
  exact ⟨(h.2.2.1 0).trans (by decide), (h.2.2.1 1).trans (by decide)⟩

/-!
Claim C7 — commands addressing a non-zero slot.
-/

/-- The decoder only produces a command whose header message type is the
constant its variant was dispatched on. -/
theorem Command.decode_type {req : List Nat} {cmd : Command}
    (h : Command.decode req = .ok cmd) :
    cmd.get_header.bMessageType = cmd.typeByte := by
  unfold Command.decode Command.checkTrailing at h
  split at h
  · exact Except.noConfusion h
  next header r0 heq =>
  repeat' split at h
  all_goals first
    | exact Except.noConfusion h
    | (injection h with h; subst h; simp_all [Command.get_header, Command.typeByte])

/-- The fourteen message-type constants a decoded command can carry. -/
theorem Command.typeByte_cases (cmd : Command) :
    cmd.typeByte = 0x62 ∨ cmd.typeByte = 0x63 ∨ cmd.typeByte = 0x65
      ∨ cmd.typeByte = 0x6F ∨ cmd.typeByte = 0x6C ∨ cmd.typeByte = 0x6D
      ∨ cmd.typeByte = 0x61 ∨ cmd.typeByte = 0x6E ∨ cmd.typeByte = 0x6A
      ∨ cmd.typeByte = 0x69 ∨ cmd.typeByte = 0x71 ∨ cmd.typeByte = 0x72
      ∨ cmd.typeByte = 0x73 ∨ cmd.typeByte = 0x6B := by
  cases cmd <;> simp [Command.typeByte]

/-- For every decoded message type except Escape (0x6B), the
`ICCAbsentFailure`/`InvalidParameter(5)` error response keeps its status and
error registers: the encoded frame has 0x42 at byte 7 and 0x05 at byte 8. -/
theorem nonEscape_error_frame (t dw sl sq : Nat)
    (ht : t = 0x62 ∨ t = 0x63 ∨ t = 0x65 ∨ t = 0x6F ∨ t = 0x6C ∨ t = 0x6D ∨ t = 0x61
      ∨ t = 0x6E ∨ t = 0x6A ∨ t = 0x69 ∨ t = 0x71 ∨ t = 0x72 ∨ t = 0x73) :
    ((Response.new_with_error
        ⟨⟨t, dw, sl, sq⟩, .ICCAbsentFailure, .InvalidParameter 0x5⟩).encode).getD 7 0 = 0x42
    ∧ ((Response.new_with_error
        ⟨⟨t, dw, sl, sq⟩, .ICCAbsentFailure, .InvalidParameter 0x5⟩).encode).getD 8 0 = 0x05 := by
  rcases ht with rfl|rfl|rfl|rfl|rfl|rfl|rfl|rfl|rfl|rfl|rfl|rfl|rfl <;>
    simp [Response.new_with_error, Response.new_with_status, Response.encode,
      ResponseMessageHeader.encode, CommonMessageHeader.encode, u32le,
      SlotStatusRegister.toByte, SlotErrorRegister.toByte, combine_slot_status,
      ICCStatus.toByte, CommandStatus.toByte, SlotStatusRegister.commandStatus,
      ICCClockStatus.toByte, ICCProtocol.toByte, List.getD]

/-- For an Escape command (0x6B), the same error response falls through the
response-shape table (whose Escape arm matches the response constant 0x83,
not 0x6B) and is overridden to `ICCActiveFailure`/`UnsupportedCommand`: byte
7 becomes 0x40 and byte 8 becomes 0x00. -/
theorem escape_error_frame (dw sl sq : Nat) :
    ((Response.new_with_error
        ⟨⟨0x6B, dw, sl, sq⟩, .ICCAbsentFailure, .InvalidParameter 0x5⟩).encode).getD 7 0 = 0x40
    ∧ ((Response.new_with_error
        ⟨⟨0x6B, dw, sl, sq⟩, .ICCAbsentFailure, .InvalidParameter 0x5⟩).encode).getD 8 0 = 0x00 := by
  simp [Response.new_with_error, Response.new_with_status, Response.encode,
    ResponseMessageHeader.encode, CommonMessageHeader.encode, u32le,
    SlotStatusRegister.toByte, SlotErrorRegister.toByte, combine_slot_status,
    ICCStatus.toByte, CommandStatus.toByte, SlotStatusRegister.commandStatus,
    ICCClockStatus.toByte, ICCProtocol.toByte, List.getD]

/-- Claim C7 is false as stated: an Escape command on slot 1 is answered with
status byte 0x40 and error byte 0x00 (the UnsupportedCommand override), not a
slot-status failure 0x42 carrying InvalidParameter(5): the Escape arm of the
response-shape table compares against the response constant 0x83, so command
type 0x6B falls into the override arm. -/
theorem claim_C7_counterexample :
    (handleBulkOut ⟨true, some [], true, some []⟩ ⟨true, none, []⟩
        [0x6B, 0x00, 0x00, 0x00, 0x00, 0x01, 0x07, 0x00, 0x00, 0x00]).1.outQueue
      = [[0x6B, 0x00, 0x00, 0x00, 0x00, 0x01, 0x07, 0x40, 0x00, 0x00]]
    ∧ ((0x40 : Nat) ≠ 0x42 ∧ (0x00 : Nat) ≠ 0x05) := by
  exact ⟨rfl, by decide⟩

/-- Claim C7 (amended): every decoded command whose header slot field is
non-zero is answered — with no PC/SC connect, disconnect or transmit, and
`card_handle` (and the parameter block) unchanged — by the encoded
`ICCAbsentFailure`/`InvalidParameter(5)` error response; for every command
type except Escape the queued frame carries status byte 0x42 and error byte
0x05 (for GetSlotStatus on slot 1 the exact queued frame is
`81 00000000 01 05 42 05 00`), while for an Escape command the frame is
overridden to status 0x40 and error 0x00 by the response-shape table's dead
Escape arm. -/
theorem claim_C7_nonzero_slot (o : PCSCOracle) (s : CCIDState) (req : List Nat)
    (cmd : Command) (hlen : 10 ≤ req.length) (hdec : Command.decode req = .ok cmd)
    (hslot : cmd.get_header.bSlot ≠ 0x0) :
    (handleBulkOut o s req
      = ({ s with outQueue := s.outQueue ++ [(Response.new_with_error
            ⟨cmd.get_header, .ICCAbsentFailure, .InvalidParameter 0x5⟩).encode] },
         [], .ok []))
    ∧ (cmd.typeByte ≠ 0x6B →
        ((Response.new_with_error
            ⟨cmd.get_header, .ICCAbsentFailure, .InvalidParameter 0x5⟩).encode).getD 7 0 = 0x42
        ∧ ((Response.new_with_error
            ⟨cmd.get_header, .ICCAbsentFailure, .InvalidParameter 0x5⟩).encode).getD 8 0 = 0x05)
    ∧ (cmd.typeByte = 0x6B →
        ((Response.new_with_error
            ⟨cmd.get_header, .ICCAbsentFailure, .InvalidParameter 0x5⟩).encode).getD 7 0 = 0x40
        ∧ ((Response.new_with_error
            ⟨cmd.get_header, .ICCAbsentFailure, .InvalidParameter 0x5⟩).encode).getD 8 0 = 0x00)
    ∧ (handleBulkOut o s [0x65, 0x00, 0x00, 0x00, 0x00, 0x01, 0x05, 0x00, 0x00, 0x00]).1.outQueue
        = s.outQueue ++ [[0x81, 0x00, 0x00, 0x00, 0x00, 0x01, 0x05, 0x42, 0x05, 0x00]] := by
  refine ⟨?_, ?_, ?_, ?_⟩
  · unfold handleBulkOut
    rw [if_neg (by omega)]
    simp only [hdec]
    by_cases hgate : s.card = false ∧ cmd.get_header.bMessageType ≠ 0x62
        ∧ cmd.get_header.bMessageType ≠ 0x63 ∧ cmd.get_header.bMessageType ≠ 0x65
    · rw [if_pos hgate]
    · rw [if_neg hgate, if_pos hslot]
  · intro hne
    refine nonEscape_error_frame cmd.get_header.bMessageType cmd.get_header.dwLength
      cmd.get_header.bSlot cmd.get_header.bSeq ?_
    rw [Command.decode_type hdec]
    rcases Command.typeByte_cases cmd with h|h|h|h|h|h|h|h|h|h|h|h|h|h <;> tauto
  · intro hesc
    have ht : cmd.get_header.bMessageType = 0x6B := by
      rw [Command.decode_type hdec]; exact hesc
    have h2 := escape_error_frame cmd.get_header.dwLength cmd.get_header.bSlot
      cmd.get_header.bSeq
    rw [show (⟨0x6B, cmd.get_header.dwLength, cmd.get_header.bSlot, cmd.get_header.bSeq⟩
        : CommonMessageHeader) = cmd.get_header from by rw [← ht]] at h2
    exact h2
  · obtain ⟨card, parameter, outQueue⟩ := s
    cases card <;> with_unfolding_all rfl

/-- Claim C7 witness: GetSlotStatus on slot 1 from a concrete state queues
exactly `81 00000000 01 05 42 05 00`. -/
theorem claim_C7_witness :
    handleBulkOut ⟨true, some [], true, some []⟩ ⟨true, none, []⟩
        [0x65, 0x00, 0x00, 0x00, 0x00, 0x01, 0x05, 0x00, 0x00, 0x00]
      = (⟨true, none, [[0x81, 0x00, 0x00, 0x00, 0x00, 0x01, 0x05, 0x42, 0x05, 0x00]]⟩,
         [], .ok []) := by
  have h := claim_C7_nonzero_slot ⟨true, some [], true, some []⟩ ⟨true, none, []⟩
    [0x65, 0x00, 0x00, 0x00, 0x00, 0x01, 0x05, 0x00, 0x00, 0x00]
    (.PC_to_RDR_GetSlotStatus ⟨0x65, 0, 0x01, 0x05⟩ [0x00, 0x00, 0x00])
    (by decide) (by rfl) (by decide)
  exact h.1.trans rfl

/-!
Claim C5 — the ATR parser.
-/

/-- Inversion of the TS stage: success needs at least two ATR bytes and a
direct (0x3B) or inverse (0x3F) TS byte. -/
theorem atrDirectConvention_inv {atr : List Nat} {dc : Bool}
    (h : atrDirectConvention atr = some dc) :
    2 ≤ atr.length ∧ (atr.getD 0 0 = 0x3B ∨ atr.getD 0 0 = 0x3F)
    ∧ dc = (atr.getD 0 0 == 0x3B) := by
  unfold atrDirectConvention at h
  split at h
  · exact Option.noConfusion h
  next hlen =>
  split at h <;> simp_all

/-- Inversion of the interface-byte stage: success needs the TA1 presence bit
and a Y1 nibble of 0xD or 0xF, and the produced offset is `atrTC1Offset`. -/
theorem atrTC1OffsetOpt_inv {atr : List Nat} {off : Nat}
    (h : atrTC1OffsetOpt atr = some off) :
    (atr.getD 1 0) &&& 0x10 ≠ 0
    ∧ (((atr.getD 1 0) &&& 0xF0) >>> 4 = 0xD ∨ ((atr.getD 1 0) &&& 0xF0) >>> 4 = 0xF)
    ∧ off = atrTC1Offset atr := by
  unfold atrTC1OffsetOpt at h
  split at h
  · exact Option.noConfusion h
  next hta1 =>
  unfold atrTC1Offset
  split at h <;> simp_all

/-- Inversion of the TD2-offset stage: success needs TD1's Y2 nibble ≥ 8. -/
theorem atrTD2OffsetOpt_inv {atr : List Nat} {td1_offset off : Nat}
    (h : atrTD2OffsetOpt atr td1_offset = some off) :
    0x8 ≤ ((atr.getD td1_offset 0) &&& 0xF0) >>> 4 := by
  unfold atrTD2OffsetOpt at h
  split at h <;> simp_all

/-- Inversion of the Y3 stage: success rules out the nibbles announcing
exactly one of TA3/TB3. -/
theorem atrTA3TB3Check_inv {y3 : Nat} (h : atrTA3TB3Check y3 = some ()) :
    y3 ≠ 0x1 ∧ y3 ≠ 0x5 ∧ y3 ≠ 0x9 ∧ y3 ≠ 0xD
    ∧ y3 ≠ 0x2 ∧ y3 ≠ 0x6 ∧ y3 ≠ 0xA ∧ y3 ≠ 0xE := by
  unfold atrTA3TB3Check at h
  split at h
  · exact Option.noConfusion h
  split at h
  · exact Option.noConfusion h
  simp_all

/-- Bit structure of the TCCKST1 byte: bit 4 set, bit 0 the CRC bit of TC1,
bit 1 the inverse-convention flag. -/
theorem tcckst1Byte_props (tc1 : Nat) (dc : Bool) :
    (tcckst1Byte tc1 dc) &&& 0x10 = 0x10
    ∧ (tcckst1Byte tc1 dc) &&& 0x1 = tc1 &&& 0x1
    ∧ (tcckst1Byte tc1 dc) &&& 0x2 = (if dc then 0x0 else 0x2) := by
  have hm : tc1 &&& 1 = tc1 % 2 := Nat.and_one_is_mod tc1
  unfold tcckst1Byte
  rcases Nat.mod_two_eq_zero_or_one tc1 with h2 | h2 <;>
    cases dc <;> simp [hm, h2, Nat.and_one_is_mod] <;> decide

/-- Claim C5 is false as stated: the claim requires `none` whenever TD2's high
nibble is outside {3,7,B,F}, but on the ATR
`3B D0 11 00 81 01 AA BB` that nibble is 0 (neither TA3 nor TB3 announced)
and the parser still succeeds — the source only debug-logs that shape. -/
theorem claim_C5_counterexample :
    parameterFromATR [0x3B, 0xD0, 0x11, 0x00, 0x81, 0x01, 0xAA, 0xBB]
      = some [0x11, 0x10, 0x00, 0xBB, 0x00, 0xAA, 0x00]
    ∧ ((([0x3B, 0xD0, 0x11, 0x00, 0x81, 0x01, 0xAA, 0xBB] : List Nat).getD
          (atrTD2Offset [0x3B, 0xD0, 0x11, 0x00, 0x81, 0x01, 0xAA, 0xBB]) 0 &&& 0xF0) >>> 4)
      = 0x0 := by
  exact ⟨by decide, by decide⟩

/-- Claim C5 (amended): the ATR parser is a total function to an optional
7-byte block; it returns `none` whenever a documented precondition fails —
bad TS, missing TA1, Y1 nibble outside {0xD, 0xF}, missing TD2 (Y2 nibble
< 8), TD2's Y3 nibble announcing exactly one of TA3/TB3 (in {1,5,9,D} or
{2,6,A,E}; nibbles announcing neither are only logged and proceed), or the
ATR too short for any required byte — equivalently, success implies every
precondition holds; and every produced block has length 7 and satisfies
`TCCKST1 & 0x10 = 0x10`, with bit 0 of TCCKST1 equal to `TC1 & 1` (TC1 is the
extra-guard-time byte, block byte 2) and bit 1 set iff the convention is
inverse (TS = 0x3F). -/
theorem claim_C5_atr_preconditions (atr block : List Nat)
    (h : parameterFromATR atr = some block) :
    (2 ≤ atr.length ∧ atrTD2Offset atr + 2 < atr.length)
    ∧ (atr.getD 0 0 = 0x3B ∨ atr.getD 0 0 = 0x3F)
    ∧ (atr.getD 1 0) &&& 0x10 ≠ 0
    ∧ (((atr.getD 1 0) &&& 0xF0) >>> 4 = 0xD ∨ ((atr.getD 1 0) &&& 0xF0) >>> 4 = 0xF)
    ∧ 0x8 ≤ ((atr.getD (atrTD1Offset atr) 0) &&& 0xF0) >>> 4
    ∧ (let y3 := ((atr.getD (atrTD2Offset atr) 0) &&& 0xF0) >>> 4
       y3 ≠ 0x1 ∧ y3 ≠ 0x5 ∧ y3 ≠ 0x9 ∧ y3 ≠ 0xD
       ∧ y3 ≠ 0x2 ∧ y3 ≠ 0x6 ∧ y3 ≠ 0xA ∧ y3 ≠ 0xE)
    ∧ block.length = 7
    ∧ block.getD 2 0 = atr.getD (atrTC1Offset atr) 0
    ∧ (block.getD 1 0) &&& 0x10 = 0x10
    ∧ (block.getD 1 0) &&& 0x1 = (block.getD 2 0) &&& 0x1
    ∧ (block.getD 1 0) &&& 0x2 = (if atr.getD 0 0 = 0x3F then 0x2 else 0x0) := by
  unfold parameterFromATR at h
  rw [Option.bind_eq_some] at h
  obtain ⟨dc, hdc, h⟩ := h
  rw [Option.bind_eq_some] at h
  obtain ⟨tc1_offset, htc1, h⟩ := h
  obtain ⟨hlen2, hts, hdceq⟩ := atrDirectConvention_inv hdc
  obtain ⟨hta1, hy1, hoff⟩ := atrTC1OffsetOpt_inv htc1
  subst hoff
  split at h
  · exact Option.noConfusion h
  split at h
  · exact Option.noConfusion h
  split at h
  · exact Option.noConfusion h
  next hb1 hb2 hb3 =>
  rw [Option.bind_eq_some] at h
  obtain ⟨td2_offset, htd2, h⟩ := h
  have hy2 := atrTD2OffsetOpt_inv htd2
  have htd2off : td2_offset = atrTD2Offset atr := by
    have h1 : atrTD1Offset atr = atrTC1Offset atr + 1 := rfl
    unfold atrTD2OffsetOpt at htd2
    unfold atrTD2Offset
    rw [h1]
    split at htd2 <;> simp_all
  subst htd2off
  split at h
  · exact Option.noConfusion h
  next hb4 =>
  rw [Option.bind_eq_some] at h
  obtain ⟨u, hy3chk, h⟩ := h
  have hy3chk2 :
      atrTA3TB3Check (((atr.getD (atrTD2Offset atr) 0) &&& 0xF0) >>> 4) = some () := by
    cases u; exact hy3chk
  obtain ⟨hy31, hy35, hy39, hy3D, hy32, hy36, hy3A, hy3E⟩ := atrTA3TB3Check_inv hy3chk2
  split at h
  · exact Option.noConfusion h
  next hb5 =>
  rw [Option.some.injEq] at h
  subst h
  obtain ⟨ht16, ht1, ht2⟩ := tcckst1Byte_props (atr.getD (atrTC1Offset atr) 0) dc
  refine ⟨⟨hlen2, by omega⟩, hts, hta1, hy1, hy2,
    ⟨hy31, hy35, hy39, hy3D, hy32, hy36, hy3A, hy3E⟩, rfl, rfl, ht16, ?_, ?_⟩
  · simpa using ht1
  · rw [show (List.getD [atr.getD 2 0, tcckst1Byte (atr.getD (atrTC1Offset atr) 0) dc,
      atr.getD (atrTC1Offset atr) 0, atr.getD (atrTD2Offset atr + 2) 0, 0,
      atr.getD (atrTD2Offset atr + 1) 0, 0] 1 0)
        = tcckst1Byte (atr.getD (atrTC1Offset atr) 0) dc from rfl, ht2]
    subst hdceq
    rcases hts with hts | hts <;> rw [hts] <;> simp

/-- Claim C5 witness: the amended statement applied to a concrete parseable
ATR. -/
theorem claim_C5_witness :
    ([0x11, 0x10, 0x00, 0xBB, 0x00, 0xAA, 0x00] : List Nat).length = 7
    ∧ (([0x11, 0x10, 0x00, 0xBB, 0x00, 0xAA, 0x00] : List Nat).getD 1 0) &&& 0x10 = 0x10 := by
  exact ⟨(claim_C5_atr_preconditions [0x3B, 0xD0, 0x11, 0x00, 0x81, 0x01, 0xAA, 0xBB]
            [0x11, 0x10, 0x00, 0xBB, 0x00, 0xAA, 0x00] (by decide)).2.2.2.2.2.2.1,
         (claim_C5_atr_preconditions [0x3B, 0xD0, 0x11, 0x00, 0x81, 0x01, 0xAA, 0xBB]
            [0x11, 0x10, 0x00, 0xBB, 0x00, 0xAA, 0x00] (by decide)).2.2.2.2.2.2.2.2.1⟩

/-!
Claim C10 — XfrBlock with a zero-length payload.
-/

/-- Claim C10: with a card handle present, an XfrBlock command on slot 0 whose
header length is 0 makes no PC/SC call (the event list is empty: no
transaction is begun and nothing is transmitted) and queues a successful
empty DataBlock: message type 0x80, dwLength 0, status byte 0x00 (ICC Active
+ Success), error byte 0x00, chain parameter 0, and no data. -/
theorem claim_C10_xfrblock_zero_length (o : PCSCOracle) (s : CCIDState)
    (seq bwi l1 l2 : Nat) (hcard : s.card = true) :
    handleBulkOut o s [0x6F, 0x00, 0x00, 0x00, 0x00, 0x00, seq, bwi, l1, l2]
      = ({ s with outQueue := s.outQueue
            ++ [[0x80, 0x00, 0x00, 0x00, 0x00, 0x00, seq, 0x00, 0x00, 0x00]] },
         [], .ok []) := by
  obtain ⟨card, parameter, outQueue⟩ := s
  subst hcard
  with_unfolding_all rfl

/-- Claim C10 witness: the statement evaluated at a concrete state and
sequence number. -/
theorem claim_C10_witness :
    handleBulkOut ⟨true, some [], true, some []⟩ ⟨true, none, []⟩
        [0x6F, 0x00, 0x00, 0x00, 0x00, 0x00, 0x08, 0x00, 0x00, 0x00]
      = (⟨true, none, [[0x80, 0x00, 0x00, 0x00, 0x00, 0x00, 0x08, 0x00, 0x00, 0x00]]⟩,
         [], .ok []) :=
  claim_C10_xfrblock_zero_length ⟨true, some [], true, some []⟩ ⟨true, none, []⟩
    0x08 0x00 0x00 0x00 rfl

/-!
Claim C9 — the aggregated BOS descriptor is well-formed.
-/

/-- The source's running total `fold(5, |v, d| v + d.len())` equals five plus
the sum of the fragment lengths. -/
theorem bos_foldl_total (l : List (List Nat)) (a : Nat) :
    l.foldl (fun v d => v + d.length) a = a + (l.map List.length).sum := by
  induction l generalizing a with
  | nil => simp
  | cons x xs ih => simp [List.foldl_cons, ih (a + x.length), Nat.add_assoc]

/-- Claim C9: the aggregated BOS descriptor emitted by the device-level
control multiplexer has a wTotalLength field equal to the byte length of the
emitted descriptor (5 plus the sum of the fragment lengths, at most 0xFFFF)
and a count byte equal to the number of emitted capability fragments (at most
0xFF); whenever either bound would be exceeded, the default 5-byte BOS
`{0x05, 0x0F, 0x05, 0x00, 0x00}` is returned instead (whose own field and
count are consistent: total length 5, count 0). -/
theorem claim_C9_bos_descriptor (frags : List (List Nat)) :
    (5 + (frags.map List.length).sum ≤ 0xFFFF → frags.length ≤ 0xFF →
      (buildBosDescriptor frags).length = 5 + (frags.map List.length).sum
      ∧ (buildBosDescriptor frags).getD 2 0 + 256 * ((buildBosDescriptor frags).getD 3 0)
          = (buildBosDescriptor frags).length
      ∧ (buildBosDescriptor frags).getD 4 0 = frags.length)
    ∧ (0xFFFF < 5 + (frags.map List.length).sum ∨ 0xFF < frags.length →
      buildBosDescriptor frags = defaultBosDescriptor)
    ∧ defaultBosDescriptor.getD 2 0 + 256 * (defaultBosDescriptor.getD 3 0)
        = defaultBosDescriptor.length
    ∧ defaultBosDescriptor.getD 4 0 = 0 := by
  have htot : frags.foldl (fun v d => v + d.length) 5 = 5 + (frags.map List.length).sum :=
    bos_foldl_total frags 5
  refine ⟨?_, ?_, by decide, by decide⟩
  · intro hlen hcount
    unfold buildBosDescriptor
    rw [htot, if_neg (by omega), if_neg (by omega)]
    have hflat : frags.flatten.length = (frags.map List.length).sum := List.length_flatten frags
    refine ⟨by simp [hflat]; omega, ?_, by simp⟩
    have hmod : (5 + (frags.map List.length).sum) % 256
        + 256 * ((5 + (frags.map List.length).sum) / 256) = 5 + (frags.map List.length).sum :=
      Nat.mod_add_div _ _
    simp [hflat]
    omega
  · intro hover
    unfold buildBosDescriptor
    rw [htot]
    rcases hover with hover | hover
    · rw [if_pos (by omega)]
    · by_cases h1 : 0xFFFF < 5 + (frags.map List.length).sum
      · rw [if_pos (by omega)]
      · rw [if_neg (by omega), if_pos (by omega)]

/-- Claim C9 witness: the aggregation evaluated at a single 3-byte fragment
(in-bounds case) and at an oversized fragment list hypothesis discharged on
the in-bounds side. -/
theorem claim_C9_witness :
    (buildBosDescriptor [[0x03, 0x01, 0x02]]).length = 8
    ∧ (buildBosDescriptor [[0x03, 0x01, 0x02]]).getD 2 0
        + 256 * ((buildBosDescriptor [[0x03, 0x01, 0x02]]).getD 3 0)
        = (buildBosDescriptor [[0x03, 0x01, 0x02]]).length
    ∧ (buildBosDescriptor [[0x03, 0x01, 0x02]]).getD 4 0 = 1 := by
  obtain ⟨h1, h2, h3⟩ := (claim_C9_bos_descriptor [[0x03, 0x01, 0x02]]).1
    (by decide) (by decide)
  exact ⟨h1, h2, h3⟩

/-!
Claim C4 — WebUSB interface-level control transfers drop the card first.
-/

/-- Writing a value below 256 into the cleared low byte of a 16-bit index
really sets the low byte to that value. -/
theorem lowByte_of_rewritten_index (a n : Nat) (h : n < 256) :
    ((a &&& 0xFF00) ||| n) &&& 0xFF = n := by
  apply Nat.eq_of_testBit_eq
  intro i
  simp only [Nat.testBit_and, Nat.testBit_or]
  have hFF : ∀ j, (0xFF : Nat).testBit j = decide (j < 8) := by
    intro j
    have h255 : (0xFF : Nat) = 2 ^ 8 - 1 := by norm_num
    rw [h255, Nat.testBit_two_pow_sub_one]
  have hFF00 : ∀ j, (0xFF00 : Nat).testBit j = (decide (j ≥ 8) && decide (j - 8 < 8)) := by
    intro j
    have hsh : (0xFF00 : Nat) = (2 ^ 8 - 1) <<< 8 := by decide
    rw [hsh, Nat.testBit_shiftLeft, Nat.testBit_two_pow_sub_one]
  rw [hFF, hFF00]
  rcases Nat.lt_or_ge i 8 with hj | hj
  · simp [hj, Nat.not_le.mpr hj]
  · have hnb : n.testBit i = false := by
      apply Nat.testBit_lt_two_pow
      calc n < 256 := h
        _ = 2 ^ 8 := by norm_num
        _ ≤ 2 ^ i := Nat.pow_le_pow_right (by norm_num) hj
    simp [hnb, hj, Nat.not_lt.mpr hj]

/-- Claim C4: every WebUSB interface-level control transfer other than an In
GetStatus first calls `drop_card` on the CCID bridge and only then forwards to
the physical interface, rewriting the low byte of the setup index to the
physical `interface_number` when the recipient is Interface; this holds for
every In transfer whose request is not GetStatus (0x00) and for every Out
transfer.  The last conjunct records that the rewrite really places
`interface_number` in the low index byte. -/
theorem claim_C4_webusb_drop_card_before_forward (n : Nat) (setup : SetupPacket)
    (req : List Nat) :
    (∀ c : ControlIn, ControlSetup.new setup req = .ok (.In c) → c.request ≠ 0x00 →
      webusbHandleUrb n setup req
        = .ok ([], [.dropCard, .forwardIn (if c.recipient = Recipient.Interface then
            { c with index := (c.index &&& 0xFF00) ||| n } else c)]))
    ∧ (∀ c : ControlOut, ControlSetup.new setup req = .ok (.Out c) →
      webusbHandleUrb n setup req
        = .ok ([], [.dropCard, .forwardOut (if c.recipient = Recipient.Interface then
            { c with index := (c.index &&& 0xFF00) ||| n } else c)]))
    ∧ (∀ idx : Nat, n < 256 → ((idx &&& 0xFF00) ||| n) &&& 0xFF = n) := by
  refine ⟨?_, ?_, fun idx h => lowByte_of_rewritten_index idx n h⟩
  · intro c hc hreq
    unfold webusbHandleUrb
    rw [hc]
    simp only [if_neg hreq]
  · intro c hc
    unfold webusbHandleUrb
    rw [hc]

/-- Claim C4 witness: a vendor In transfer (request 0x01, recipient Interface,
index 0x1234) on physical interface 7 drops the card, then forwards with the
low index byte rewritten to 7. -/
theorem claim_C4_witness :
    webusbHandleUrb 0x07 ⟨0xC1, 0x01, 0x00, 0x1234, 16⟩ []
      = .ok ([], [.dropCard,
          .forwardIn ⟨.Vendor, .Interface, 0x01, 0x00, (0x1234 &&& 0xFF00) ||| 0x07, 16⟩])
    ∧ ((0x1234 &&& 0xFF00) ||| 0x07) &&& 0xFF = 0x07 := by
  refine ⟨?_, ?_⟩
  · exact ((claim_C4_webusb_drop_card_before_forward 0x07 ⟨0xC1, 0x01, 0x00, 0x1234, 16⟩ []).1
      ⟨.Vendor, .Interface, 0x01, 0x00, 0x1234, 16⟩ rfl (by decide)).trans rfl
  · exact (claim_C4_webusb_drop_card_before_forward 0x07 ⟨0xC1, 0x01, 0x00, 0x1234, 16⟩ []).2.2
      0x1234 (by decide)

/-!
Claim C6 — validation of enum-valued command fields.
-/

/-- Claim C6 is false as stated: a SetParameters command whose protocol byte
is 0x02 decodes to a CommandError carrying `InvalidParameter(9)`, not
`InvalidParameter(7)`. -/
theorem claim_C6_counterexample :
    Command.decode [0x61, 0x00, 0x00, 0x00, 0x00, 0x00, 0x00, 0x02, 0x00, 0x00]
      = .error (.CommandError ⟨⟨0x61, 0, 0x00, 0x00⟩, .ICCInactiveFailure,
          .InvalidParameter 0x9⟩)
    ∧ SlotErrorRegister.InvalidParameter 0x9 ≠ .InvalidParameter 0x7 := by
  exact ⟨rfl, by decide⟩

/-- Claim C6 (amended): enum-valued fields are validated against their small
enumerations; out-of-range `voltage`, `clock_command`, `t0_class_change` and
`mechanical_function` bytes produce `InvalidParameter(7)`, while an
out-of-range `protocol` byte produces `InvalidParameter(9)`; in particular a
SetParameters command whose protocol byte is neither 0x00 nor 0x01 decodes to
a CommandError carrying `InvalidParameter(9)`. -/
theorem claim_C6_enum_field_validation (v : Nat) :
    (v ≠ 0x00 ∧ v ≠ 0x01 ∧ v ≠ 0x02 ∧ v ≠ 0x03 →
      ICCVoltage.tryFrom v = .error (.InvalidParameter 0x07))
    ∧ (v ≠ 0x00 ∧ v ≠ 0x01 →
      ICCClockCommand.tryFrom v = .error (.InvalidParameter 0x07))
    ∧ (v ≠ 0x00 ∧ v ≠ 0x01 ∧ v ≠ 0x02 ∧ v ≠ 0x03 →
      T0APDUClassChange.tryFrom v = .error (.InvalidParameter 0x07))
    ∧ (v ≠ 0x01 ∧ v ≠ 0x02 ∧ v ≠ 0x03 ∧ v ≠ 0x04 ∧ v ≠ 0x05 →
      ICCMechanicalFunction.tryFrom v = .error (.InvalidParameter 0x07))
    ∧ (v ≠ 0x00 ∧ v ≠ 0x01 →
      ICCProtocol.tryFrom v = .error (.InvalidParameter 0x9))
    ∧ (∀ slot seq b1 b2 : Nat, v ≠ 0x00 ∧ v ≠ 0x01 →
      Command.decode [0x61, 0x00, 0x00, 0x00, 0x00, slot, seq, v, b1, b2]
        = .error (.CommandError ⟨⟨0x61, 0, slot, seq⟩, .ICCInactiveFailure,
            .InvalidParameter 0x9⟩)) := by
  refine ⟨?_, ?_, ?_, ?_, ?_, ?_⟩
  · rintro ⟨h0, h1, h2, h3⟩
    obtain ⟨n, rfl⟩ : ∃ n, v = n + 4 := ⟨v - 4, by omega⟩
    rfl
  · rintro ⟨h0, h1⟩
    obtain ⟨n, rfl⟩ : ∃ n, v = n + 2 := ⟨v - 2, by omega⟩
    rfl
  · rintro ⟨h0, h1, h2, h3⟩
    obtain ⟨n, rfl⟩ : ∃ n, v = n + 4 := ⟨v - 4, by omega⟩
    rfl
  · rintro ⟨h1, h2, h3, h4, h5⟩
    rcases Nat.eq_zero_or_pos v with h0 | h0
    · subst h0; rfl
    · obtain ⟨n, rfl⟩ : ∃ n, v = n + 6 := ⟨v - 6, by omega⟩
      rfl
  · rintro ⟨h0, h1⟩
    obtain ⟨n, rfl⟩ : ∃ n, v = n + 2 := ⟨v - 2, by omega⟩
    rfl
  · rintro slot seq b1 b2 ⟨h0, h1⟩
    obtain ⟨n, rfl⟩ : ∃ n, v = n + 2 := ⟨v - 2, by omega⟩
    rfl

/-- Claim C6 witness: the amended statement evaluated at the out-of-range
byte 0x07 (and protocol byte 0x02 for the decode conjunct). -/
theorem claim_C6_witness :
    ICCVoltage.tryFrom 0x07 = .error (.InvalidParameter 0x07)
    ∧ ICCClockCommand.tryFrom 0x07 = .error (.InvalidParameter 0x07)
    ∧ T0APDUClassChange.tryFrom 0x07 = .error (.InvalidParameter 0x07)
    ∧ ICCMechanicalFunction.tryFrom 0x07 = .error (.InvalidParameter 0x07)
    ∧ ICCProtocol.tryFrom 0x07 = .error (.InvalidParameter 0x9)
    ∧ Command.decode [0x61, 0x00, 0x00, 0x00, 0x00, 0x00, 0x01, 0x02, 0x00, 0x00]
      = .error (.CommandError ⟨⟨0x61, 0, 0x00, 0x01⟩, .ICCInactiveFailure,
          .InvalidParameter 0x9⟩) := by
  refine ⟨(claim_C6_enum_field_validation 0x07).1 (by decide),
          (claim_C6_enum_field_validation 0x07).2.1 (by decide),
          (claim_C6_enum_field_validation 0x07).2.2.1 (by decide),
          (claim_C6_enum_field_validation 0x07).2.2.2.1 (by decide),
          (claim_C6_enum_field_validation 0x07).2.2.2.2.1 (by decide),
          (claim_C6_enum_field_validation 0x02).2.2.2.2.2 0x00 0x01 0x00 0x00 (by decide)⟩

end Smredir
